import Mathlib

/-!
# Verification of the Distraction Blocker threat-scoring engine

A shallow embedding, in Lean 4, of the multi-signal URL/page threat-scoring
engine of the Distraction Blocker browser extension: the Bloom-filter
membership structure, the lexical helpers (Levenshtein distance), the URL and
page detectors, and the coordinator/aggregation logic, together with theorems
settling the behavioural claims made about them.

Modelling conventions:
* JavaScript strings are modelled as `List Char`; `String.data` converts
  literals.  Items fed to the Bloom filter are modelled as their sequence of
  UTF-16 code units (`List Nat`), matching `charCodeAt`.
* JavaScript 32-bit integer operations (`Math.imul`, `<<`, `>>>`, `^`, `|`)
  are modelled on the unsigned representative in `[0, 2^32)`.
* Host-environment behaviour that is not part of the repository (the WHATWG
  URL parser, the regular-expression engine, floating-point entropy) is
  passed in as explicit function parameters, so theorems quantify over it.
* Mutable module state (loaded reference data, settings, whitelist) is passed
  explicitly; nullable module state is `Option`.
-/

/-- JavaScript strings, as sequences of characters. -/
abbrev Str := List Char

/-- Convert a Lean string literal to the `Str` model. -/
def str (s : String) : Str := s.data

/-- ASCII lower-casing of one character (JavaScript `toLowerCase`, restricted
to the ASCII range, which is the only range exercised by the data model). -/
def lowerChar (c : Char) : Char :=
  if 'A' ≤ c && c ≤ 'Z' then Char.ofNat (c.toNat + 32) else c

/-- JavaScript `String.prototype.toLowerCase` (ASCII fold). -/
def jsToLower (s : Str) : Str := s.map lowerChar

/-- JavaScript `String.prototype.includes`: substring containment. -/
def jsIncludes : Str → Str → Bool
  | [], sub => sub.isEmpty
  | s@(_ :: t), sub => sub.isPrefixOf s || jsIncludes t sub

/-- JavaScript `String.prototype.endsWith`. -/
def jsEndsWith (s suffixStr : Str) : Bool := List.isSuffixOf suffixStr s

/-- JavaScript `String.prototype.startsWith`. -/
def jsStartsWith (s prefixStr : Str) : Bool := List.isPrefixOf prefixStr s

/-! ## Membership Filter (`BloomFilter`, src/unnamed/part_000)

The bit array of `Uint8Array` bytes is modelled as a `List Nat` of bytes.
Out-of-range typed-array writes are no-ops and out-of-range reads behave as
zero in JavaScript; `List.set` and `List.getD _ _ 0` have exactly this
behaviour.  `Uint8Array` stores values modulo 256, kept as an explicit `% 256`.
-/

/-- JavaScript `Math.imul` on unsigned representatives: 32-bit wraparound
multiplication. -/
def imul32 (a b : Nat) : Nat := (a * b) % 4294967296

/-- JavaScript `<<` on a 32-bit integer, unsigned representative view. -/
def shl32 (a n : Nat) : Nat := (a <<< n) % 4294967296

/-- One iteration of the character loop of `BloomFilter._hash`:
`k1 = imul(c, 0xcc9e2d51); k1 = (k1 << 15) | (k1 >>> 17);
k1 = imul(k1, 0x1b873593); h1 ^= k1; h1 = (h1 << 13) | (h1 >>> 19);
h1 = imul(h1, 5) + 0xe6546b64` (the uncoerced addition is reduced modulo
`2^32` here; every subsequent JavaScript use coerces it the same way). -/
def hashStep (h1 c : Nat) : Nat :=
  let k1 := imul32 c 0xcc9e2d51
  let k1 := (shl32 k1 15) ||| (k1 >>> 17)
  let k1 := imul32 k1 0x1b873593
  let h2 := h1 ^^^ k1
  let h3 := (shl32 h2 13) ||| (h2 >>> 19)
  (imul32 h3 5 + 0xe6546b64) % 4294967296

/-- The finalisation of `BloomFilter._hash`: xor with the key length, the
avalanche steps, and the final `Math.abs` on the signed 32-bit value
(a representative `r ≥ 2^31` denotes the negative value `r - 2^32`). -/
def hashFinish (h0 len : Nat) : Nat :=
  let h := h0 ^^^ (len % 4294967296)
  let h := h ^^^ (h >>> 16)
  let h := imul32 h 0x85ebca6b
  let h := h ^^^ (h >>> 13)
  let h := imul32 h 0xc2b2ae35
  let h := h ^^^ (h >>> 16)
  if h < 2147483648 then h else 4294967296 - h

/-- `BloomFilter._hash(key, seed)`: the murmur-like string hash.  The key is
the sequence of UTF-16 code units of the item. -/
def bloomHash (key : List Nat) (seed : Nat) : Nat :=
  hashFinish (key.foldl hashStep (seed % 4294967296)) key.length

/-- The Bloom filter state: bit-array size in bits, number of hash
functions, the byte array, and the item counter. -/
structure BloomFilter where
  size : Nat
  hashCount : Nat
  bitArray : List Nat
  itemCount : Nat
deriving Repr, DecidableEq

/-- The `BloomFilter` constructor: `size` bits, all zero, in
`ceil(size / 8)` bytes. -/
def BloomFilter.create (size hashCount : Nat) : BloomFilter :=
  { size := size
    hashCount := hashCount
    bitArray := List.replicate ((size + 7) / 8) 0
    itemCount := 0 }

/-- `BloomFilter._getHashPositions`: double hashing
`(hash1 + i * hash2) % size` for `i < hashCount`.  (For `size = 0` the
JavaScript `%` yields `NaN` and every subsequent bit lookup misses; `Nat`'s
`% 0` keeps the operand, which also misses every bit, so the observable
behaviour agrees.) -/
def BloomFilter.getHashPositions (bf : BloomFilter) (item : List Nat) : List Nat :=
  let hash1 := bloomHash item 0
  let hash2 := bloomHash item hash1
  (List.range bf.hashCount).map fun i => (hash1 + i * hash2) % bf.size

/-- `BloomFilter._setBit`: set bit `position % 8` of byte `position / 8`. -/
def setBitArr (arr : List Nat) (position : Nat) : List Nat :=
  let byteIndex := position / 8
  let bitIndex := position % 8
  arr.set byteIndex ((arr.getD byteIndex 0 ||| (1 <<< bitIndex)) % 256)

/-- `BloomFilter._getBit`: test bit `position % 8` of byte `position / 8`. -/
def getBitArr (arr : List Nat) (position : Nat) : Bool :=
  let byteIndex := position / 8
  let bitIndex := position % 8
  (arr.getD byteIndex 0 &&& (1 <<< bitIndex)) != 0

/-- `BloomFilter.add`: set every hash position's bit and bump the counter. -/
def BloomFilter.add (bf : BloomFilter) (item : List Nat) : BloomFilter :=
  { bf with
    bitArray := (bf.getHashPositions item).foldl setBitArr bf.bitArray
    itemCount := bf.itemCount + 1 }

/-- `BloomFilter.addAll`. -/
def BloomFilter.addAll (bf : BloomFilter) (items : List (List Nat)) : BloomFilter :=
  items.foldl BloomFilter.add bf

/-- `BloomFilter.contains`: true unless some hash position's bit is unset. -/
def BloomFilter.contains (bf : BloomFilter) (item : List Nat) : Bool :=
  (bf.getHashPositions item).all fun position => getBitArr bf.bitArray position

/-! ## Lexical Analyzer: `levenshteinDistance` (src/security/contentFilter.js)

The JavaScript function fills `matrix[i][j]` for `i ≤ b.length`,
`j ≤ a.length`;  `levMatrix a b i j` is that entry, defined by the same
recurrence the loop establishes. -/

/-- Row `i + 1` of the Levenshtein matrix, computed from row `i` (`prev`),
exactly as the inner `for (j …)` loop fills it: cell `j + 1` is the diagonal
on equal characters and otherwise
`min(diagonal + 1, left + 1, above + 1)`. -/
def levRowNext (a b : Str) (i : Nat) (prev : Nat → Nat) : Nat → Nat
  | 0 => i + 1
  | j + 1 =>
    if b.getD i ' ' = a.getD j ' ' then prev j
    else
      min (prev j + 1) (min (levRowNext a b i prev j + 1) (prev (j + 1) + 1))

/-- The DP matrix of `levenshteinDistance`: `levMatrix a b i j` is
`matrix[i][j]`; row index `i` ranges over `b`, column index `j` over `a`
(the JavaScript matrix is indexed `[b][a]`), built row by row like the
outer `for (i …)` loop. -/
def levMatrix (a b : Str) : Nat → Nat → Nat
  | 0 => fun j => j
  | i + 1 => levRowNext a b i (levMatrix a b i)

/-- `levenshteinDistance(a, b)`.  The JavaScript guard `if (!a || !b)`
treats the empty string as falsy, so it fires exactly when a length is 0. -/
def levenshteinDistance (a b : Str) : Nat :=
  if a.length = 0 ∨ b.length = 0 then max a.length b.length
  else levMatrix a b b.length a.length

/-! ## Security configuration (src/security/securityConfig.js) -/

/-- `THREAT_LEVELS`. -/
inductive ThreatLevel
  | NONE | LOW | MEDIUM | HIGH | CRITICAL
deriving Repr, DecidableEq

/-- `RECOMMENDATIONS`. -/
inductive Recommendation
  | ALLOW | WARN | BLOCK
deriving Repr, DecidableEq

/-- `THREAT_THRESHOLDS.CRITICAL`. -/
def THREAT_THRESHOLDS_CRITICAL : Nat := 90

/-- `THREAT_THRESHOLDS.HIGH`. -/
def THREAT_THRESHOLDS_HIGH : Nat := 70

/-- `THREAT_THRESHOLDS.MEDIUM`. -/
def THREAT_THRESHOLDS_MEDIUM : Nat := 40

/-- `THREAT_THRESHOLDS.LOW`. -/
def THREAT_THRESHOLDS_LOW : Nat := 1

/-- `TYPOSQUATTING_THRESHOLD`. -/
def TYPOSQUATTING_THRESHOLD : Nat := 3

/-- `MAX_DOMAIN_LENGTH`. -/
def MAX_DOMAIN_LENGTH : Nat := 50

/-- `URL_SHORTENERS`. -/
def URL_SHORTENERS : List Str :=
  [str "bit.ly", str "bitly.com", str "tinyurl.com", str "t.co", str "goo.gl",
   str "ow.ly", str "is.gd", str "buff.ly", str "adf.ly", str "tiny.cc",
   str "lnkd.in", str "db.tt", str "qr.ae", str "cur.lv", str "ity.im",
   str "q.gs", str "po.st", str "bc.vc", str "u.to", str "j.mp",
   str "v.gd", str "x.co", str "shorte.st", str "tr.im", str "link.zip.net",
   str "cutt.ly", str "rb.gy", str "shorturl.at", str "trib.al", str "clicky.me",
   str "bl.ink", str "s.id", str "t.ly", str "rebrand.ly", str "short.io"]

/-- A `{type, detail, score}` flag record.  Scores are natural numbers: every
score the engine writes is a non-negative integer (the only non-integral
values, the per-flag shares in `calculatePhishingScore`, use integer division
here; see that definition). -/
structure ThreatFlag where
  type : Str
  detail : Str
  score : Nat
deriving Repr, DecidableEq

/-- One entry of `SUSPICIOUS_PATTERNS`: the regex source text, its score,
type and detail. -/
structure SuspiciousPatternCfg where
  pattern : Str
  score : Nat
  type : Str
  detail : Str
deriving Repr, DecidableEq

/-- `SUSPICIOUS_PATTERNS` (regexes kept as their source text; matching is
delegated to the host regex engine parameter). -/
def SUSPICIOUS_PATTERNS : List SuspiciousPatternCfg :=
  [⟨str "^https?:\\/\\/\\d{1,3}\\.\\d{1,3}\\.\\d{1,3}\\.\\d{1,3}", 25,
    str "ip_address", str "Direct IP address access"⟩,
   ⟨str "-{2,}", 10, str "multiple_hyphens", str "Multiple consecutive hyphens"⟩,
   ⟨str "\\.(exe|msi|bat|cmd|ps1|vbs|js|jar|scr|pif)$", 35,
    str "executable", str "Executable file extension"⟩,
   ⟨str "(login|signin|account|secure|verify|update|confirm)", 10,
    str "sensitive_keywords", str "Contains sensitive keywords"⟩,
   ⟨str "\\..*\\.", 5, str "subdomain_depth", str "Deep subdomain structure"⟩,
   ⟨str "@", 20, str "at_symbol", str "Contains @ symbol in URL"⟩,
   ⟨str "\\.(tk|ml|ga|cf|gq)$", 25, str "free_tld",
    str "Free TLD often used for phishing"⟩,
   ⟨str "%[0-9a-f]{2}", 5, str "encoded_chars", str "URL-encoded characters"⟩,
   ⟨str "data:", 40, str "data_uri", str "Data URI scheme"⟩,
   ⟨str "javascript:", 45, str "javascript_uri", str "JavaScript URI scheme"⟩]

/-! ## Host environment

Behaviour supplied by the browser platform, not by this repository: the
WHATWG URL parser, the regular-expression engine, and floating-point
arithmetic.  They enter the embedding as explicit parameters, so every
theorem quantifies over all of their possible behaviours. -/

/-- The parts of a parsed `URL` object the engine reads. -/
structure UrlParts where
  hostname : Str
  protocol : Str
deriving Repr, DecidableEq

/-- The host environment.  `regexTest p s` is `new RegExp(p).test(s)` (with
the flags of the call site); `regexValid p` says whether `new RegExp(p)`
compiles (call sites with a `try`/`catch` skip invalid patterns);
`matchCount p s` is the number of matches of a `g`-flagged regex
(`s.match(re)` is `null` iff the count is 0); `entropyHigh s` is the
floating-point comparison `calculateEntropy(s) > ENTROPY_THRESHOLD`.
The one `g`-flagged entry of `SUSPICIOUS_PATTERNS` makes `test` stateful in
JavaScript; a pure function over-approximates it, and the theorems quantify
over every outcome. -/
structure HostEnv where
  parseUrl : Str → Option UrlParts
  resolveUrl : Str → Str → Option UrlParts
  regexTest : Str → Str → Bool
  regexValid : Str → Bool
  matchCount : Str → Str → Nat
  entropyHigh : Str → Bool

/-! ## Shared string utilities used by the detectors -/

/-- JavaScript `s.split(pat).join(repl)` (replace every occurrence of the
non-empty substring `pat`); the fuel argument is `s.length`, enough because
each step consumes at least one character. -/
def replaceAllSubAux : Nat → Str → Str → Str → Str
  | 0, s, _, _ => s
  | fuel + 1, s, pat, repl =>
    match s with
    | [] => []
    | c :: t =>
      if pat ≠ [] && pat.isPrefixOf s then
        repl ++ replaceAllSubAux fuel (s.drop pat.length) pat repl
      else c :: replaceAllSubAux fuel t pat repl

/-- Replace every occurrence of `pat` in `s` by `repl` (JavaScript
`split`/`join`; the call sites only use non-empty single-character `pat`). -/
def replaceAllSub (s pat repl : Str) : Str :=
  replaceAllSubAux s.length s pat repl

/-- JavaScript `s.replace(pat, repl)` with a plain-string `pat`: replace the
first occurrence only. -/
def replaceFirstSub : Str → Str → Str → Str
  | [], _, _ => []
  | s@(c :: t), pat, repl =>
    if pat ≠ [] && pat.isPrefixOf s then repl ++ s.drop pat.length
    else c :: replaceFirstSub t pat repl

/-- `legit.replace(/\*/g, '.*')`: expand every `*` to `.*`. -/
def replaceStars (s : Str) : Str :=
  s.flatMap fun c => if c = '*' then str ".*" else [c]

/-- JavaScript `keyword.replace(/[.*+?^${}()|[\]\\]/g, '\\$&')`: prefix every
regex metacharacter with a backslash. -/
def escapeRegExp (s : Str) : Str :=
  s.flatMap fun c =>
    if c ∈ ['.', '*', '+', '?', '^', '$', '\x7b', '\x7d', '(', ')', '|',
        '[', ']', '\\'] then ['\\', c]
    else [c]

/-- JavaScript `String.prototype.split` with a character-class regex:
split at every separator character; adjacent separators produce empty
fields, and the empty string yields `[""]`. -/
def splitOnAny (s : Str) (seps : List Char) : List Str :=
  s.foldr
    (fun c acc =>
      if c ∈ seps then [] :: acc
      else
        match acc with
        | [] => [[c]]
        | g :: gs => (c :: g) :: gs)
    [[]]

/-- `[...new Set(xs)]`: deduplicate keeping first occurrences in order. -/
def dedupFirst (l : List Str) : List Str :=
  l.foldl (fun acc x => if acc.contains x then acc else acc ++ [x]) []

/-- Lookup in an association list modelling a JavaScript object
(`obj[key]`, `undefined` as `none`); `Object.entries` order is the list
order. -/
def alookup {β : Type} (l : List (Str × β)) (k : Str) : Option β :=
  (l.find? fun e => e.1 = k).map Prod.snd

/-- ASCII upper-casing of one character (`toUpperCase`, ASCII range). -/
def upperChar (c : Char) : Char :=
  if 'a' ≤ c && c ≤ 'z' then Char.ofNat (c.toNat - 32) else c

/-- `level.charAt(0).toUpperCase() + level.slice(1)`. -/
def capitalize (s : Str) : Str :=
  match s with
  | [] => []
  | c :: t => upperChar c :: t

/-- UTF-16 code units of a string (all data here is in the basic plane, where
the code unit equals the code point). -/
def codeUnits (s : Str) : List Nat := s.map Char.toNat

/-! ## URL Security Analyzer (second half of src/security/contentFilter.js) -/

/-- One brand of `brandDatabase.json`. -/
structure Brand where
  name : Str
  keywords : List Str
  legitimateDomains : List Str
  priority : Str
deriving Repr, DecidableEq

/-- `homoglyphMap.json`: each table maps a lookalike character to its Latin
equivalent (`latin` for the Cyrillic/Greek tables, `lookalike` for the
special-character and digit tables).  The `unicode`/`name` metadata fields
are copied into result payloads but never read, and are omitted. -/
structure HomoglyphMap where
  cyrillicToLatin : List (Str × Str)
  greekToLatin : List (Str × Str)
  specialCharacters : List (Str × Str)
  numberLetterSubstitutions : List (Str × Str)
deriving Repr, DecidableEq

/-- `detectHomograph` result: the found `(original, replacement)` pairs, the
normalised domain, and the capped score. -/
structure HomographResult where
  hasHomograph : Bool
  homoglyphs : List (Str × Str)
  normalizedDomain : Str
  score : Nat
deriving Repr, DecidableEq

/-- `detectHomograph(domain)`: scan for Cyrillic, Greek and special
lookalikes (replacing them in the running `normalized` string), then digit
substitutions (flagged only if the letter variant appears in some brand's
legitimate domains); score is `min(#found × 15, 45)`. -/
def detectHomograph (homoglyphMap : Option HomoglyphMap)
    (brandDatabase : Option (List Brand)) (domain : Str) : HomographResult :=
  let base : HomographResult := ⟨false, [], domain, 0⟩
  match homoglyphMap with
  | none => base
  | some hm =>
    if domain = [] then base
    else
      let step := fun (acc : List (Str × Str) × Str) (e : Str × Str) =>
        if jsIncludes domain e.1 then
          (acc.1 ++ [e], replaceAllSub acc.2 e.1 e.2)
        else acc
      let acc1 := hm.cyrillicToLatin.foldl step ([], domain)
      let acc2 := hm.greekToLatin.foldl step acc1
      let acc3 := hm.specialCharacters.foldl step acc2
      let found := hm.numberLetterSubstitutions.foldl
        (fun fnd e =>
          if jsIncludes domain e.1 then
            let letterVariant := replaceFirstSub domain e.1 (jsToLower e.2)
            if (brandDatabase.getD []).any (fun b =>
                b.legitimateDomains.any fun d => jsIncludes d letterVariant) then
              fnd ++ [e]
            else fnd
          else fnd) acc3.1
      if found ≠ [] then ⟨true, found, acc3.2, min (found.length * 15) 45⟩
      else base

/-- The legitimate-domain predicate that `detectTyposquatting`,
`analyzeSuspiciousPatterns` and `detectBrandImpersonation` each inline
verbatim: a `*`-bearing entry is turned into a regex (`*` ↦ `.*`) and tested,
otherwise exact or `.`-suffix match. -/
def isLegitimateDomain (regexTest : Str → Str → Bool) (brand : Brand)
    (domain : Str) : Bool :=
  brand.legitimateDomains.any fun legit =>
    if jsIncludes legit (str "*") then regexTest (replaceStars legit) domain
    else domain = legit || jsEndsWith domain ('.' :: legit)

/-- `detectTyposquatting` result; `distance : Option Nat` models the
`Infinity` initialiser, and `priority` is only present once flagged. -/
structure TypoResult where
  isTyposquatting : Bool
  targetBrand : Option Str
  distance : Option Nat
  matchedDomain : Option Str
  priority : Option Str
  score : Nat
deriving Repr, DecidableEq

/-- The initial `detectTyposquatting` result. -/
def typoInit : TypoResult := ⟨false, none, none, none, none, 0⟩

/-- `distance < result.distance` where `none` is `Infinity`. -/
def ltInf (d : Nat) : Option Nat → Bool
  | none => true
  | some d' => d < d'

/-- The body of the keyword loop of `detectTyposquatting`. -/
def typoKeywordStep (regexTest : Str → Str → Bool) (domain dwt : Str)
    (brand : Brand) (result : TypoResult) (keyword : Str) : TypoResult :=
  if jsIncludes dwt keyword then result
  else
    let distance := levenshteinDistance dwt keyword
    if distance ≤ TYPOSQUATTING_THRESHOLD ∧ ltInf distance result.distance = true then
      if isLegitimateDomain regexTest brand domain then result
      else
        ⟨true, some brand.name, some distance, some keyword, some brand.priority,
          (TYPOSQUATTING_THRESHOLD - distance + 1) * 20⟩
    else result

/-- `detectTyposquatting(domain)`: strip the TLD, then for every brand
keyword not contained in the remainder compute the edit distance; keep the
strictly closest non-legitimate candidate; score
`(threshold − distance + 1) × 20`. -/
def detectTyposquatting (brandDatabase : Option (List Brand))
    (regexTest : Str → Str → Bool) (domain : Str) : TypoResult :=
  match brandDatabase with
  | none => typoInit
  | some brands =>
    if domain = [] then typoInit
    else
      let domainWithoutTld :=
        List.intercalate (str ".") ((domain.splitOn '.').dropLast)
      brands.foldl
        (fun result brand =>
          brand.keywords.foldl
            (typoKeywordStep regexTest domain domainWithoutTld brand) result)
        typoInit

/-- `analyzeSuspiciousPatterns` result (the pushed pattern records have
exactly the flag shape). -/
structure PatternsResult where
  suspiciousPatterns : List ThreatFlag
  totalScore : Nat
deriving Repr, DecidableEq

/-- Append one matched pattern. -/
def pushPattern (r : PatternsResult) (f : ThreatFlag) : PatternsResult :=
  ⟨r.suspiciousPatterns ++ [f], r.totalScore + f.score⟩

/-- `analyzeSuspiciousPatterns(url)`: the fixed regex table, domain length,
subdomain count, entropy (floating point, delegated to the host parameter)
and brand-keyword misuse.  An unparsable URL returns the empty result via
the `catch`.  The JavaScript subdomain count `split('.').length - 2` can be
negative where ours truncates at 0; both fail the `> 3` test, so behaviour
agrees. -/
def analyzeSuspiciousPatterns (env : HostEnv)
    (brandDatabase : Option (List Brand)) (url : Str) : PatternsResult :=
  if url = [] then ⟨[], 0⟩
  else
    match env.parseUrl url with
    | none => ⟨[], 0⟩
    | some urlObj =>
      let fullUrl := jsToLower url
      let hostname := jsToLower urlObj.hostname
      let r1 := SUSPICIOUS_PATTERNS.foldl
        (fun r pc =>
          if env.regexTest pc.pattern fullUrl then
            pushPattern r ⟨pc.type, pc.detail, pc.score⟩
          else r)
        ⟨[], 0⟩
      let r2 :=
        if MAX_DOMAIN_LENGTH < hostname.length then
          pushPattern r1 ⟨str "long_domain", str "Domain exceeds 50 characters", 15⟩
        else r1
      let subdomainCount := (hostname.splitOn '.').length - 2
      let r3 :=
        if 3 < subdomainCount then
          pushPattern r2 ⟨str "excessive_subdomains",
            (toString subdomainCount).data ++ str " subdomains detected",
            subdomainCount * 5⟩
        else r2
      let r4 :=
        if env.entropyHigh (hostname.filter (· ≠ '.')) then
          pushPattern r3 ⟨str "high_entropy",
            str "High randomness in domain", 10⟩
        else r3
      match brandDatabase with
      | none => r4
      | some brands =>
        brands.foldl
          (fun r brand =>
            brand.keywords.foldl
              (fun r keyword =>
                if jsIncludes hostname keyword then
                  if isLegitimateDomain env.regexTest brand hostname then r
                  else
                    let sc : Nat := if brand.priority = str "critical" then 30 else 20
                    pushPattern r ⟨str "brand_keyword_misuse",
                      str "Contains \"" ++ keyword ++
                        str "\" but is not a legitimate " ++ brand.name ++
                        str " domain", sc⟩
                else r)
              r)
          r4

/-- `tldRiskScores.json` risk table: `{tlds, score, reason}`. -/
structure TldTable where
  tlds : List Str
  score : Nat
  reason : Str
deriving Repr, DecidableEq

/-- A `specialPurpose` entry: `{tld, score, reason}`. -/
structure SpecialTld where
  tld : Str
  score : Nat
  reason : Str
deriving Repr, DecidableEq

/-- `tldRiskScores.json` (country tables carry `{tlds, score}`; their reason
text is synthesised from the level name). -/
structure TldRiskData where
  highRisk : TldTable
  mediumRisk : TldTable
  lowRisk : TldTable
  specialPurpose : List (Str × SpecialTld)
  countryTlds : List (Str × TldTable)
deriving Repr, DecidableEq

/-- `assessTldRisk` result. -/
structure TldRiskResult where
  tld : Str
  riskLevel : Str
  score : Nat
  reason : Str
deriving Repr, DecidableEq

/-- `assessTldRisk(tld)`: high → medium → special-purpose → country → low,
first match wins. -/
def assessTldRisk (tldRiskScores : Option TldRiskData) (tld : Str) :
    TldRiskResult :=
  let base : TldRiskResult := ⟨tld, str "low", 0, str "Standard TLD"⟩
  match tldRiskScores with
  | none => base
  | some t =>
    if tld = [] then base
    else
      let tldLower := jsToLower tld
      if t.highRisk.tlds.contains tldLower then
        ⟨tld, str "high", t.highRisk.score, t.highRisk.reason⟩
      else if t.mediumRisk.tlds.contains tldLower then
        ⟨tld, str "medium", t.mediumRisk.score, t.mediumRisk.reason⟩
      else
        match t.specialPurpose.find? fun e => tldLower = e.2.tld with
        | some e => ⟨tld, str "high", e.2.score, e.2.reason⟩
        | none =>
          match t.countryTlds.find? fun e => e.2.tlds.contains tldLower with
          | some e =>
            ⟨tld, e.1, e.2.score, capitalize e.1 ++ str " trust country TLD"⟩
          | none =>
            if t.lowRisk.tlds.contains tldLower then
              ⟨tld, str "low", t.lowRisk.score, t.lowRisk.reason⟩
            else base

/-- `isUrlShortener` result. -/
structure ShortenerResult where
  isShortener : Bool
  service : Option Str
  score : Nat
deriving Repr, DecidableEq

/-- `isUrlShortener(domain)`: exact or dot-suffix match against the fixed
shortener list, flat score 15. -/
def isUrlShortener (domain : Str) : ShortenerResult :=
  if domain = [] then ⟨false, none, 0⟩
  else
    let domainLower := jsToLower domain
    match URL_SHORTENERS.find? fun s =>
        domainLower = s || jsEndsWith domainLower ('.' :: s) with
    | some s => ⟨true, some s, 15⟩
    | none => ⟨false, none, 0⟩

/-- A `maliciousDomains.json` pattern entry. -/
structure MalPattern where
  pattern : Str
  type : Str
  score : Nat
deriving Repr, DecidableEq

/-- `maliciousDomains.json` (an absent category list behaves as empty via
the optional chaining, so plain lists suffice). -/
structure MaliciousData where
  phishing : List Str
  malware : List Str
  scam : List Str
  patterns : List MalPattern
deriving Repr, DecidableEq

/-- `checkMaliciousDomain` result. -/
structure MaliciousResult where
  isMalicious : Bool
  type : Option Str
  score : Nat
deriving Repr, DecidableEq

/-- `checkMaliciousDomain(domain)`: exact list hit scores 100; otherwise the
first matching (valid) regex pattern wins; invalid patterns are skipped by
the `catch`. -/
def checkMaliciousDomain (env : HostEnv) (maliciousDomains : Option MaliciousData)
    (domain : Str) : MaliciousResult :=
  match maliciousDomains with
  | none => ⟨false, none, 0⟩
  | some md =>
    if domain = [] then ⟨false, none, 0⟩
    else
      let domainLower := jsToLower domain
      if md.phishing.contains domainLower then ⟨true, some (str "phishing"), 100⟩
      else if md.malware.contains domainLower then ⟨true, some (str "malware"), 100⟩
      else if md.scam.contains domainLower then ⟨true, some (str "scam"), 100⟩
      else
        match md.patterns.find? fun p =>
            env.regexValid p.pattern && env.regexTest p.pattern domainLower with
        | some p => ⟨true, some p.type, p.score⟩
        | none => ⟨false, none, 0⟩

/-- The loaded module state of the URL analyzer (each dataset may still be
unloaded, i.e. `null`). -/
structure UrlAnalyzerState where
  homoglyphMap : Option HomoglyphMap
  brandDatabase : Option (List Brand)
  tldRiskScores : Option TldRiskData
  maliciousDomains : Option MaliciousData

/-- The `analysis` payload of `analyzeUrl` (all `null` until computed). -/
structure UrlAnalysisParts where
  homograph : Option HomographResult
  typosquatting : Option TypoResult
  patterns : Option PatternsResult
  tld : Option TldRiskResult
  shortener : Option ShortenerResult
  malicious : Option MaliciousResult
deriving Repr, DecidableEq

/-- The `ThreatAssessment` returned by `analyzeUrl` (the `Date.now`
timestamp is outside the embedding). -/
structure UrlAssessment where
  url : Str
  threatScore : Nat
  threatLevel : ThreatLevel
  flags : List ThreatFlag
  recommendation : Recommendation
  analysis : UrlAnalysisParts
deriving Repr, DecidableEq

/-- `analyzeUrl(url)` (src/security/contentFilter.js): run the six URL
detectors, sum their scores, cap at 100, and classify.  The memoisation
cache is not modelled: a cache hit returns a result this same computation
produced earlier, and expiry is wall-clock behaviour.  An unparsable URL is
caught and yields the zero assessment with an `analysis_error` flag. -/
def analyzeUrl (env : HostEnv) (st : UrlAnalyzerState) (url : Str) :
    UrlAssessment :=
  let base : UrlAssessment :=
    ⟨url, 0, ThreatLevel.NONE, [], Recommendation.ALLOW,
      ⟨none, none, none, none, none, none⟩⟩
  match env.parseUrl url with
  | none =>
    { base with flags := [⟨str "analysis_error", str "Failed to analyze URL", 0⟩] }
  | some urlObj =>
    let hostname := urlObj.hostname
    let tld : Str := '.' :: (hostname.splitOn '.').getLastD []
    let homograph := detectHomograph st.homoglyphMap st.brandDatabase hostname
    let typosquatting := detectTyposquatting st.brandDatabase env.regexTest hostname
    let patterns := analyzeSuspiciousPatterns env st.brandDatabase url
    let tldR := assessTldRisk st.tldRiskScores tld
    let shortener := isUrlShortener hostname
    let malicious := checkMaliciousDomain env st.maliciousDomains hostname
    let acc0 : List ThreatFlag × Nat := ([], 0)
    let acc1 :=
      if homograph.hasHomograph then
        (acc0.1 ++ [⟨str "homograph",
          str "Lookalike characters detected: " ++
            List.intercalate (str ", ") (homograph.homoglyphs.map Prod.fst),
          homograph.score⟩], acc0.2 + homograph.score)
      else acc0
    let acc2 :=
      if typosquatting.isTyposquatting then
        (acc1.1 ++ [⟨str "typosquatting",
          str "Possible impersonation of " ++ (typosquatting.targetBrand.getD []),
          typosquatting.score⟩], acc1.2 + typosquatting.score)
      else acc1
    let acc3 :=
      if patterns.suspiciousPatterns ≠ [] then
        (acc2.1 ++ patterns.suspiciousPatterns, acc2.2 + patterns.totalScore)
      else acc2
    let acc4 :=
      if 0 < tldR.score then
        (acc3.1 ++ [⟨str "risky_tld", tldR.tld ++ str ": " ++ tldR.reason,
          tldR.score⟩], acc3.2 + tldR.score)
      else acc3
    let acc5 :=
      if shortener.isShortener then
        (acc4.1 ++ [⟨str "url_shortener",
          str "URL shortener detected: " ++ (shortener.service.getD []),
          shortener.score⟩], acc4.2 + shortener.score)
      else acc4
    let acc6 :=
      if malicious.isMalicious then
        (acc5.1 ++ [⟨str "malicious_domain",
          str "Known " ++ (malicious.type.getD []) ++ str " domain",
          malicious.score⟩], acc5.2 + malicious.score)
      else acc5
    let threatScore := min acc6.2 100
    let levelRec : ThreatLevel × Recommendation :=
      if THREAT_THRESHOLDS_CRITICAL ≤ threatScore then
        (ThreatLevel.CRITICAL, Recommendation.BLOCK)
      else if THREAT_THRESHOLDS_HIGH ≤ threatScore then
        (ThreatLevel.HIGH, Recommendation.BLOCK)
      else if THREAT_THRESHOLDS_MEDIUM ≤ threatScore then
        (ThreatLevel.MEDIUM, Recommendation.WARN)
      else if THREAT_THRESHOLDS_LOW ≤ threatScore then
        (ThreatLevel.LOW, Recommendation.ALLOW)
      else (ThreatLevel.NONE, Recommendation.ALLOW)
    ⟨url, threatScore, levelRec.1, acc6.1, levelRec.2,
      ⟨some homograph, some typosquatting, some patterns, some tldR,
        some shortener, some malicious⟩⟩

/-! ## Threat classification (Alert Manager, src/unnamed/part_002) -/

/-- `classifyThreatLevel(score)`. -/
def classifyThreatLevel (score : Nat) : ThreatLevel :=
  if THREAT_THRESHOLDS_CRITICAL ≤ score then ThreatLevel.CRITICAL
  else if THREAT_THRESHOLDS_HIGH ≤ score then ThreatLevel.HIGH
  else if THREAT_THRESHOLDS_MEDIUM ≤ score then ThreatLevel.MEDIUM
  else if THREAT_THRESHOLDS_LOW ≤ score then ThreatLevel.LOW
  else ThreatLevel.NONE

/-- The recommendation assignment the aggregators share
(`analyzeUrlSecurity`, `analyzePageSecurity`, `calculatePhishingScore`):
`BLOCK` from the HIGH threshold, `WARN` from MEDIUM, else the initial
`ALLOW`. -/
def recommendFor (score : Nat) : Recommendation :=
  if THREAT_THRESHOLDS_HIGH ≤ score then Recommendation.BLOCK
  else if THREAT_THRESHOLDS_MEDIUM ≤ score then Recommendation.WARN
  else Recommendation.ALLOW

/-! ## Content Category Filter (first half of src/security/contentFilter.js) -/

/-- One category of `adultKeywords.json` (absent keyword arrays behave as
empty: the code appends `|| []`). -/
structure CategoryData where
  explicit : List Str
  moderate : List Str
  keywords : List Str
  blockTlds : List Str
deriving Repr, DecidableEq

/-- `adultKeywords.json`: the five fixed content categories (the
`safeModeParams` table is only read by the safe-search rewriting, which is
outside this embedding). -/
structure AdultKeywordsData where
  adult : CategoryData
  gambling : CategoryData
  violence : CategoryData
  drugs : CategoryData
  piracy : CategoryData
deriving Repr, DecidableEq

/-- `adultKeywords.categories[category]` (`undefined` off the five keys). -/
def AdultKeywordsData.categoriesLookup (ak : AdultKeywordsData)
    (category : Str) : Option CategoryData :=
  if category = str "adult" then some ak.adult
  else if category = str "gambling" then some ak.gambling
  else if category = str "violence" then some ak.violence
  else if category = str "drugs" then some ak.drugs
  else if category = str "piracy" then some ak.piracy
  else none

/-- One per-category configuration `{enabled, strictness}`. -/
structure CategoryConfig where
  enabled : Bool
  strictness : Str
deriving Repr, DecidableEq

/-- `contentFilterSettings`: a JavaScript object iterated with
`Object.entries`, modelled as an ordered association list. -/
structure ContentSettings where
  entries : List (Str × CategoryConfig)
deriving Repr, DecidableEq

/-- `checkDomainBlocklist` result. -/
structure BlocklistResult where
  isBlocked : Bool
  categories : List Str
  score : Nat
deriving Repr, DecidableEq

/-- `checkDomainBlocklist(domain)`: adult then gambling `blockTlds` suffix
check; the first hit blocks immediately with score 100. -/
def checkDomainBlocklist (ak : Option AdultKeywordsData)
    (cfg : Option ContentSettings) (domain : Str) : BlocklistResult :=
  match ak, cfg with
  | some ak, some cfg =>
    if domain = [] then ⟨false, [], 0⟩
    else
      let domainLower := jsToLower domain
      let adultOn := ((alookup cfg.entries (str "adult")).map (·.enabled)).getD false
      if adultOn && ak.adult.blockTlds.any (fun tld => jsEndsWith domainLower tld) then
        ⟨true, [str "adult"], 100⟩
      else
        let gamblingOn :=
          ((alookup cfg.entries (str "gambling")).map (·.enabled)).getD false
        if gamblingOn && ak.gambling.blockTlds.any (fun tld => jsEndsWith domainLower tld) then
          ⟨true, [str "gambling"], 100⟩
        else ⟨false, [], 0⟩
  | _, _ => ⟨false, [], 0⟩

/-- A `{category, keyword}` match record of `analyzeUrlKeywords`. -/
structure KeywordMatch where
  category : Str
  keyword : Str
deriving Repr, DecidableEq

/-- `analyzeUrlKeywords` result (`matchList` models the `matches` field —
`matches` is reserved in Lean). -/
structure UrlKeywordsResult where
  matchedCategories : List Str
  matchList : List KeywordMatch
  score : Nat
deriving Repr, DecidableEq

/-- One category's keyword loop of `analyzeUrlKeywords`. -/
def keywordScan (urlLower : Str) (urlParts : List Str) (category : Str)
    (kws : List Str) (per : Nat) (r : UrlKeywordsResult) : UrlKeywordsResult :=
  kws.foldl
    (fun r keyword =>
      if urlParts.contains keyword || jsIncludes urlLower keyword then
        ⟨r.matchedCategories ++ [category], r.matchList ++ [⟨category, keyword⟩],
          r.score + per⟩
      else r)
    r

/-- `analyzeUrlKeywords(url)`: split the lowered URL at
`[\/\.\-\_\?\&\=]`, scan each enabled category's keyword list (adult `high`
strictness adds the moderate set), dedupe categories, cap the score at
100. -/
def analyzeUrlKeywords (ak : Option AdultKeywordsData)
    (cfg : Option ContentSettings) (url : Str) : UrlKeywordsResult :=
  match ak, cfg with
  | some ak, some cfg =>
    if url = [] then ⟨[], [], 0⟩
    else
      let urlLower := jsToLower url
      let urlParts := splitOnAny urlLower ['/', '.', '-', '_', '?', '&', '=']
      let r0 : UrlKeywordsResult := ⟨[], [], 0⟩
      let r1 :=
        match alookup cfg.entries (str "adult") with
        | some c =>
          if c.enabled then
            keywordScan urlLower urlParts (str "adult")
              (if c.strictness = str "high" then
                ak.adult.explicit ++ ak.adult.moderate
              else ak.adult.explicit)
              (if c.strictness = str "high" then 80 else 60) r0
          else r0
        | none => r0
      let r2 :=
        match alookup cfg.entries (str "gambling") with
        | some c =>
          if c.enabled then
            keywordScan urlLower urlParts (str "gambling") ak.gambling.keywords 50 r1
          else r1
        | none => r1
      let r3 :=
        match alookup cfg.entries (str "violence") with
        | some c =>
          if c.enabled then
            keywordScan urlLower urlParts (str "violence") ak.violence.keywords 50 r2
          else r2
        | none => r2
      let r4 :=
        match alookup cfg.entries (str "drugs") with
        | some c =>
          if c.enabled then
            keywordScan urlLower urlParts (str "drugs") ak.drugs.keywords 40 r3
          else r3
        | none => r3
      let r5 :=
        match alookup cfg.entries (str "piracy") with
        | some c =>
          if c.enabled then
            keywordScan urlLower urlParts (str "piracy") ak.piracy.keywords 40 r4
          else r4
        | none => r4
      ⟨dedupFirst r5.matchedCategories, r5.matchList, min r5.score 100⟩
  | _, _ => ⟨[], [], 0⟩

/-- `getCategoryForUrl` result. -/
structure CategoryResult where
  categories : List Str
  primaryCategory : Option Str
  shouldBlock : Bool
  score : Nat
  reason : Option Str
deriving Repr, DecidableEq

/-- `getCategoryForUrl(url)` (its one-minute memo cache is not modelled):
domain blocklist first (immediate block), then the URL keyword analysis
(blocks from score 50); a parse failure is caught and yields the default
result. -/
def getCategoryForUrl (env : HostEnv) (ak : Option AdultKeywordsData)
    (cfg : Option ContentSettings) (url : Str) : CategoryResult :=
  match env.parseUrl url with
  | none => ⟨[], none, false, 0, none⟩
  | some urlObj =>
    let blocklistCheck := checkDomainBlocklist ak cfg urlObj.hostname
    if blocklistCheck.isBlocked then
      ⟨blocklistCheck.categories, blocklistCheck.categories.head?, true,
        blocklistCheck.score,
        some (str "Domain blocked for " ++
          List.intercalate (str ", ") blocklistCheck.categories ++
          str " content")⟩
    else
      let ka := analyzeUrlKeywords ak cfg url
      if ka.matchedCategories ≠ [] then
        ⟨ka.matchedCategories, ka.matchedCategories.head?, 50 ≤ ka.score,
          ka.score,
          some (str "URL contains " ++
            List.intercalate (str ", ") (ka.matchList.map (·.keyword)))⟩
      else ⟨[], none, false, 0, none⟩

/-- `checkUrl` result.  The `safeSearchApplied`/`modifiedUrl` fields are
omitted: `enforceSafeSearch` (search-engine query rewriting through the URL
serialiser) writes only those two fields and never the block decision or
score. -/
structure CheckUrlResult where
  url : Str
  isBlocked : Bool
  categories : List Str
  reason : Option Str
  score : Nat
deriving Repr, DecidableEq

/-- `checkUrl(url)`: the content-filter entry point used by the URL
coordinator. -/
def checkUrl (env : HostEnv) (ak : Option AdultKeywordsData)
    (cfg : Option ContentSettings) (url : Str) : CheckUrlResult :=
  let categoryResult := getCategoryForUrl env ak cfg url
  if categoryResult.shouldBlock then
    ⟨url, true, categoryResult.categories, categoryResult.reason,
      categoryResult.score⟩
  else ⟨url, false, [], none, 0⟩

/-! ## Page data (the content-script collector's payload) -/

/-- One form input descriptor (`name` may be `undefined`: the code uses
`input.name?.…`). -/
structure InputField where
  type : Str
  name : Option Str
deriving Repr, DecidableEq

/-- One collected form (`action`/`method` default to the empty string via
`|| ''`; inputs via `|| []`). -/
structure FormRec where
  action : Str
  method : Str
  inputs : List InputField
deriving Repr, DecidableEq

/-- One collected image (`src`/`alt` default to empty via `|| ''`). -/
structure ImageRec where
  src : Str
  alt : Str
deriving Repr, DecidableEq

/-- The page payload analysed by the phishing and content detectors.  An
`undefined` `forms`/`images`/`hiddenFields` array behaves exactly as an
empty one at every use site, so plain lists suffice; `domainAge` keeps its
absent case (`none`). -/
structure PageData where
  url : Str
  domain : Str
  title : Str
  textContent : Str
  forms : List FormRec
  images : List ImageRec
  hasPopupLogin : Bool
  rightClickDisabled : Bool
  hasIframeLogin : Bool
  domainAge : Option Nat
  hiddenFields : List InputField
deriving Repr, DecidableEq

/-- A `{category, keyword, count}` record of `analyzePageContent`. -/
structure PageContentMatch where
  category : Str
  keyword : Str
  count : Nat
deriving Repr, DecidableEq

/-- `analyzePageContent` result (`matchList` models the `matches` field). -/
structure PageContentResult where
  matchedCategories : List Str
  matchList : List PageContentMatch
  score : Nat
  shouldBlock : Bool
deriving Repr, DecidableEq

/-- `analyzePageContent(pageData)`: count whole-word keyword occurrences
(the `\b`-bounded global regex built with `escapeRegExp`, counted by the
host engine) in the lowered title-plus-text; a category needs at least 3
occurrences to match, scoring `min(occurrences × 10, 50)`; the sum is
capped at 100 and blocks from 50. -/
def analyzePageContent (env : HostEnv) (ak : Option AdultKeywordsData)
    (cfg : Option ContentSettings) (pageData : Option PageData) :
    PageContentResult :=
  match ak, pageData, cfg with
  | some ak, some pd, some cfg =>
    let combinedText := jsToLower pd.title ++ [' '] ++ jsToLower pd.textContent
    let r := cfg.entries.foldl
      (fun (r : PageContentResult) entry =>
        let category := entry.1
        let config := entry.2
        if !config.enabled then r
        else
          match ak.categoriesLookup category with
          | none => r
          | some categoryData =>
            let keywords :=
              if category = str "adult" then
                (if config.strictness = str "high" then
                  categoryData.explicit ++ categoryData.moderate
                else categoryData.explicit)
              else categoryData.keywords
            let scanned := keywords.foldl
              (fun (acc : Nat × List PageContentMatch) keyword =>
                let c := env.matchCount
                  (str "\\b" ++ escapeRegExp keyword ++ str "\\b") combinedText
                if c ≠ 0 then (acc.1 + c, acc.2 ++ [⟨category, keyword, c⟩])
                else acc)
              (0, r.matchList)
            let r := { r with matchList := scanned.2 }
            if 3 ≤ scanned.1 then
              { r with
                matchedCategories := r.matchedCategories ++ [category]
                score := r.score + min (scanned.1 * 10) 50 }
            else r)
      ⟨[], [], 0, false⟩
    let score := min r.score 100
    ⟨r.matchedCategories, r.matchList, score, 50 ≤ score⟩
  | _, _, _ => ⟨[], [], 0, false⟩

/-! ## Privacy Shield (src/unnamed/part_002, first file) -/

/-- `privacySettings` (`trackerCategories` is an object keyed by category). -/
structure PrivacySettings where
  blockTrackers : Bool
  cleanUrls : Bool
  trackerCategories : List (Str × Bool)
deriving Repr, DecidableEq

/-- `isTrackerDomain` result. -/
structure TrackerResult where
  isTracker : Bool
  categories : List Str
  shouldBlock : Bool
deriving Repr, DecidableEq

/-- `isTrackerDomain(domain)`: Bloom-filter pre-check (on the exact domain,
then walking up the subdomain labels), then the exact per-category scan
restricted to enabled categories; `shouldBlock` if some matched category is
enabled. -/
def isTrackerDomain (trackerDomains : Option (List (Str × List Str)))
    (privacySettings : Option PrivacySettings) (bloom : Option BloomFilter)
    (domain : Str) : TrackerResult :=
  let neutral : TrackerResult := ⟨false, [], false⟩
  match trackerDomains, privacySettings with
  | some td, some ps =>
    if domain = [] ∨ ps.blockTrackers = false then neutral
    else
      let domainLower := jsToLower domain
      let pass :=
        match bloom with
        | none => true
        | some bf =>
          if bf.contains (codeUnits domainLower) then true
          else
            let parts := domainLower.splitOn '.'
            (List.range' 1 (parts.length - 1)).any fun i =>
              bf.contains (codeUnits (List.intercalate (str ".") (parts.drop i)))
      if !pass then neutral
      else
        let r := td.foldl
          (fun (r : TrackerResult) entry =>
            let category := entry.1
            let domains := entry.2
            if !((alookup ps.trackerCategories category).getD false) then r
            else if domains.any (fun t =>
                domainLower = t || jsEndsWith domainLower ('.' :: t)) then
              { r with isTracker := true, categories := r.categories ++ [category] }
            else r)
          neutral
        if r.categories ≠ [] then
          { r with shouldBlock := r.categories.any fun c =>
              (alookup ps.trackerCategories c).getD false }
        else r
  | _, _ => neutral

/-! ## Phishing Detection Module (src/unnamed/part_001) -/

/-- One analysed form of `detectLoginForms`. -/
structure FormAnalysis where
  hasPasswordField : Bool
  hasUsernameField : Bool
  hasEmailField : Bool
  action : Str
  method : Str
  inputFields : List InputField
deriving Repr, DecidableEq

/-- `detectLoginForms` result. -/
structure LoginFormsResult where
  hasLoginForm : Bool
  forms : List FormAnalysis
  score : Nat
deriving Repr, DecidableEq

/-- `detectLoginForms(pageData)`: keep the forms bearing a password field;
flag username/email fields by `type` and `name` substrings; base score 10
when any login form exists. -/
def detectLoginForms (pd : PageData) : LoginFormsResult :=
  if pd.forms = [] then ⟨false, [], 0⟩
  else
    let forms := pd.forms.foldl
      (fun acc form =>
        let fa0 : FormAnalysis :=
          ⟨false, false, false, form.action,
            (if form.method = [] then str "GET" else form.method), form.inputs⟩
        let fa := form.inputs.foldl
          (fun (fa : FormAnalysis) input =>
            let fa := if input.type = str "password" then
                { fa with hasPasswordField := true } else fa
            let fa := if input.type = str "email" ||
                ((input.name.map fun n => jsIncludes (jsToLower n) (str "email")).getD
                  false) then
                { fa with hasEmailField := true } else fa
            let fa := if input.type = str "text" &&
                ((input.name.map fun n =>
                    jsIncludes (jsToLower n) (str "user") ||
                    jsIncludes (jsToLower n) (str "login") ||
                    jsIncludes (jsToLower n) (str "name")).getD false) then
                { fa with hasUsernameField := true } else fa
            fa)
          fa0
        if fa.hasPasswordField then acc ++ [fa] else acc)
      []
    if forms ≠ [] then ⟨true, forms, 10⟩ else ⟨false, [], 0⟩

/-- One suspicious form action. -/
structure SuspiciousAction where
  type : Str
  detail : Str
  actionUrl : Str
deriving Repr, DecidableEq

/-- `analyzeFormActions` result. -/
structure FormActionsResult where
  suspiciousActions : List SuspiciousAction
  score : Nat
deriving Repr, DecidableEq

/-- The literal regex `/^\d{1,3}\.\d{1,3}\.\d{1,3}\.\d{1,3}$/`: exactly four
dot-separated groups of one to three digits. -/
def isIpv4Like (s : Str) : Bool :=
  match s.splitOn '.' with
  | [a, b, c, d] =>
    [a, b, c, d].all fun g =>
      1 ≤ g.length && g.length ≤ 3 && g.all fun ch => '0' ≤ ch && ch ≤ '9'
  | _ => false

/-- Append one suspicious action to the running result. -/
def pushAction (r : FormActionsResult) (a : SuspiciousAction) (sc : Nat) :
    FormActionsResult :=
  ⟨r.suspiciousActions ++ [a], r.score + sc⟩

/-- `analyzeFormActions(forms, currentDomain)`: resolve each form action
against `https://currentDomain` (the host resolver; failure is the
`invalid_action` catch) and flag cross-domain, IP-literal, insecure-HTTP and
`data:`/`javascript:` destinations. -/
def analyzeFormActions (env : HostEnv) (forms : List FormAnalysis)
    (currentDomain : Str) : FormActionsResult :=
  forms.foldl
    (fun r form =>
      if form.action = [] || form.action = str "#" then r
      else
        match env.resolveUrl form.action (str "https://" ++ currentDomain) with
        | none =>
          pushAction r ⟨str "invalid_action", str "Form has invalid action URL",
            form.action⟩ 10
        | some actionUrl =>
          let actionDomain := actionUrl.hostname
          let r :=
            if actionDomain ≠ currentDomain &&
                !jsEndsWith actionDomain ('.' :: currentDomain) then
              pushAction r ⟨str "cross_domain_submit",
                str "Form submits to external domain: " ++ actionDomain,
                form.action⟩ 25
            else r
          let r :=
            if isIpv4Like actionDomain then
              pushAction r ⟨str "ip_submit", str "Form submits to IP address",
                form.action⟩ 30
            else r
          let r :=
            if form.hasPasswordField && actionUrl.protocol = str "http:" then
              pushAction r ⟨str "insecure_submit",
                str "Password submitted over insecure HTTP", form.action⟩ 20
            else r
          let r :=
            if jsStartsWith form.action (str "data:") ||
                jsStartsWith form.action (str "javascript:") then
              pushAction r ⟨str "suspicious_protocol",
                str "Form uses suspicious protocol", form.action⟩ 35
            else r
          r)
    ⟨[], 0⟩

/-- One brand-impersonation indicator (`keywords` only populated for
`brand_keywords` indicators, as in the JavaScript objects). -/
structure ImpersonationIndicator where
  type : Str
  detail : Str
  keywords : List Str
deriving Repr, DecidableEq

/-- `detectBrandImpersonation` result. -/
structure BrandImpersonationResult where
  isImpersonating : Bool
  impersonatedBrand : Option Str
  indicators : List ImpersonationIndicator
  score : Nat
deriving Repr, DecidableEq

/-- The built-in trusted-domain list of `detectBrandImpersonation`. -/
def trustedDomains : List Str :=
  [str "google.com", str "google.co", str "www.google.",
   str "bing.com", str "www.bing.com",
   str "yahoo.com", str "search.yahoo.com",
   str "duckduckgo.com", str "www.duckduckgo.com",
   str "yandex.com", str "yandex.ru",
   str "baidu.com", str "www.baidu.com",
   str "youtube.com", str "www.youtube.com",
   str "wikipedia.org", str "en.wikipedia.org",
   str "reddit.com", str "www.reddit.com",
   str "twitter.com", str "x.com",
   str "facebook.com", str "www.facebook.com",
   str "instagram.com", str "www.instagram.com",
   str "linkedin.com", str "www.linkedin.com",
   str "github.com", str "www.github.com",
   str "stackoverflow.com", str "www.stackoverflow.com",
   str "amazon.com", str "www.amazon.",
   str "ebay.com", str "www.ebay.com",
   str "cnn.com", str "bbc.com", str "nytimes.com",
   str "medium.com", str "quora.com"]

/-- `detectBrandImpersonation(pageData, currentDomain)`: skip trusted
domains (exact, dot-suffix, or plain substring containment); otherwise count
brand-keyword mentions in the lowered title-plus-text, flag non-legitimate
domains (the per-brand keyword score is
`min(matches × 10 × priorityMultiplier, 40)` with multiplier 2 / 1.5 / 1 —
all products are integers, written `20 / 15 / 10` per match here), and add
15 per brand-logo image reference not served from a legitimate source. -/
def detectBrandImpersonation (regexTest : Str → Str → Bool)
    (brandDatabasePhishing : Option (List Brand)) (pageData : Option PageData)
    (currentDomain : Str) : BrandImpersonationResult :=
  let neutral : BrandImpersonationResult := ⟨false, none, [], 0⟩
  match brandDatabasePhishing, pageData with
  | some brands, some pd =>
    let domainLower := jsToLower currentDomain
    let isTrustedDomain := trustedDomains.any fun trusted =>
      domainLower = trusted || jsEndsWith domainLower ('.' :: trusted) ||
        jsIncludes domainLower trusted
    if isTrustedDomain then neutral
    else
      let pageText := jsToLower (pd.title ++ [' '] ++ pd.textContent)
      brands.foldl
        (fun result brand =>
          let foundKeywords := brand.keywords.filter fun kw =>
            jsIncludes pageText (jsToLower kw)
          let keywordMatches := foundKeywords.length
          let result :=
            if keywordMatches ≠ 0 then
              if isLegitimateDomain regexTest brand domainLower then result
              else
                { result with
                  isImpersonating := true
                  impersonatedBrand := some brand.name
                  indicators := result.indicators ++
                    [⟨str "brand_keywords",
                      str "Page mentions " ++ brand.name ++ str " keywords: " ++
                        List.intercalate (str ", ") foundKeywords,
                      foundKeywords⟩]
                  score := result.score +
                    min (keywordMatches *
                      (if brand.priority = str "critical" then 20
                       else if brand.priority = str "high" then 15 else 10)) 40 }
            else result
          pd.images.foldl
            (fun result img =>
              let imgSrc := jsToLower img.src
              let imgAlt := jsToLower img.alt
              brand.keywords.foldl
                (fun result keyword =>
                  if jsIncludes imgSrc keyword || jsIncludes imgAlt keyword then
                    let isLegitimateSource := brand.legitimateDomains.any
                      fun d => jsIncludes imgSrc (replaceFirstSub d (str "*") [])
                    if !isLegitimateSource &&
                        result.impersonatedBrand = some brand.name then
                      { result with
                        indicators := result.indicators ++
                          [⟨str "brand_logo",
                            str "Possible " ++ brand.name ++
                              str " logo from external source", []⟩]
                        score := result.score + 15 }
                    else result
                  else result)
                result)
            result)
        neutral
  | _, _ => neutral

/-- One entry of a `phishingPatterns.json` table. -/
structure PatternEntry where
  pattern : Str
  category : Str
  score : Nat
deriving Repr, DecidableEq

/-- `phishingPatterns.json`: the four categorised pattern tables. -/
structure PhishingPatterns where
  urgencyPatterns : List PatternEntry
  credentialPatterns : List PatternEntry
  rewardPatterns : List PatternEntry
  impersonationPatterns : List PatternEntry
deriving Repr, DecidableEq

/-- One recorded match of `detectUrgencyLanguage`. -/
structure UrgencyMatch where
  pattern : Str
  category : Str
  matchCount : Nat
  score : Nat
deriving Repr, DecidableEq

/-- `detectUrgencyLanguage` result (`matchList` models `matches`). -/
structure UrgencyResult where
  hasUrgencyLanguage : Bool
  matchList : List UrgencyMatch
  score : Nat
deriving Repr, DecidableEq

/-- One pattern-table loop body of `detectUrgencyLanguage`.  `setFlag`
distinguishes the first three tables (whose loop bodies set
`hasUrgencyLanguage = true` on a match) from the impersonation table (whose
body does not); invalid regexes are skipped by the `catch`. -/
def urgencyStep (env : HostEnv) (textLower : Str) (setFlag : Bool)
    (r : UrgencyResult) (pat : PatternEntry) : UrgencyResult :=
  if env.regexValid pat.pattern then
    let c := env.matchCount pat.pattern textLower
    if c ≠ 0 then
      ⟨r.hasUrgencyLanguage || setFlag,
        r.matchList ++ [⟨pat.pattern, pat.category, c, pat.score⟩],
        r.score + pat.score⟩
    else r
  else r

/-- `detectUrgencyLanguage(textContent)`: scan the lowered text against the
urgency, credential, reward and impersonation tables; each matching pattern
adds its configured score once. -/
def detectUrgencyLanguage (env : HostEnv)
    (phishingPatterns : Option PhishingPatterns) (textContent : Str) :
    UrgencyResult :=
  match phishingPatterns with
  | none => ⟨false, [], 0⟩
  | some pp =>
    if textContent = [] then ⟨false, [], 0⟩
    else
      let textLower := jsToLower textContent
      let r := pp.urgencyPatterns.foldl (urgencyStep env textLower true) ⟨false, [], 0⟩
      let r := pp.credentialPatterns.foldl (urgencyStep env textLower true) r
      let r := pp.rewardPatterns.foldl (urgencyStep env textLower true) r
      pp.impersonationPatterns.foldl (urgencyStep env textLower false) r

/-- One suspicious page characteristic. -/
structure PageCharacteristic where
  type : Str
  detail : Str
deriving Repr, DecidableEq

/-- `analyzePageCharacteristics` result. -/
structure PageCharResult where
  suspiciousCharacteristics : List PageCharacteristic
  score : Nat
deriving Repr, DecidableEq

/-- Append one characteristic. -/
def pushChar (r : PageCharResult) (c : PageCharacteristic) (sc : Nat) :
    PageCharResult :=
  ⟨r.suspiciousCharacteristics ++ [c], r.score + sc⟩

/-- `analyzePageCharacteristics(pageData)`: popup login 10, disabled
right-click 15, iframe login 20, plain-HTTP page 25, very new domain 20
(the `domainAge &&` guard makes age 0 falsy), suspiciously named hidden
fields 15 each (first matching name wins per field). -/
def analyzePageCharacteristics (pageData : Option PageData) : PageCharResult :=
  match pageData with
  | none => ⟨[], 0⟩
  | some pd =>
    let r : PageCharResult := ⟨[], 0⟩
    let r := if pd.hasPopupLogin then
        pushChar r ⟨str "popup_login", str "Login form in popup/modal"⟩ 10
      else r
    let r := if pd.rightClickDisabled then
        pushChar r ⟨str "right_click_disabled",
          str "Right-click is disabled on page"⟩ 15
      else r
    let r := if pd.hasIframeLogin then
        pushChar r ⟨str "iframe_login", str "Login form in iframe"⟩ 20
      else r
    let r := if pd.url ≠ [] && jsStartsWith pd.url (str "http://") then
        pushChar r ⟨str "no_https", str "Page not using HTTPS"⟩ 25
      else r
    let r :=
      match pd.domainAge with
      | some age =>
        if age ≠ 0 && age < 30 then
          pushChar r ⟨str "new_domain",
            str "Domain is less than " ++ (toString age).data ++
              str " days old"⟩ 20
        else r
      | none => r
    pd.hiddenFields.foldl
      (fun r field =>
        let suspiciousNames := [str "password", str "pass", str "pwd",
          str "creditcard", str "cc", str "ssn"]
        match suspiciousNames.find? fun name =>
            (field.name.map fun n => jsIncludes (jsToLower n) name).getD false with
        | some name =>
          pushChar r ⟨str "suspicious_hidden_field",
            str "Hidden field with name containing \"" ++ name ++ str "\""⟩ 15
        | none => r)
      r

/-- The `indicators` record assembled by `analyzePage`; fields are optional
exactly as the code guards them with `?.` (`formActions` stays `null` when
no login form exists). -/
structure Indicators where
  loginForms : Option LoginFormsResult
  formActions : Option FormActionsResult
  brandImpersonation : Option BrandImpersonationResult
  urgencyLanguage : Option UrgencyResult
  pageCharacteristics : Option PageCharResult
deriving Repr, DecidableEq

/-- The aggregate returned by `calculatePhishingScore`. -/
structure PhishingAssessment where
  totalScore : Nat
  flags : List ThreatFlag
  threatLevel : ThreatLevel
  recommendation : Recommendation
deriving Repr, DecidableEq

/-- `calculatePhishingScore(indicators)`: sum the contributing detector
scores, emit the flag list, cap at 100 and classify.  The per-flag shares
`score / suspiciousActions.length` (and the page-characteristics analogue)
are floating-point in JavaScript and integer division here; no consumer, and
no claim, reads those shares, and the summed `totalScore` is unaffected. -/
def calculatePhishingScore (ind : Indicators) : PhishingAssessment :=
  let acc0 : Nat × List ThreatFlag := (0, [])
  let acc1 : Nat × List ThreatFlag :=
    match ind.loginForms with
    | some lf =>
      if lf.hasLoginForm then
        (acc0.1 + lf.score, acc0.2 ++
          [⟨str "login_form_present",
            (toString lf.forms.length).data ++ str " login form(s) detected",
            lf.score⟩])
      else acc0
    | none => acc0
  let acc2 : Nat × List ThreatFlag :=
    match ind.formActions with
    | some fa =>
      if fa.suspiciousActions.length ≠ 0 then
        (acc1.1 + fa.score, acc1.2 ++ fa.suspiciousActions.map fun a =>
          ⟨a.type, a.detail, fa.score / fa.suspiciousActions.length⟩)
      else acc1
    | none => acc1
  let acc3 : Nat × List ThreatFlag :=
    match ind.brandImpersonation with
    | some bi =>
      if bi.isImpersonating then
        (acc2.1 + bi.score, acc2.2 ++
          [⟨str "brand_impersonation",
            str "Possible impersonation of " ++ (bi.impersonatedBrand.getD []),
            bi.score⟩])
      else acc2
    | none => acc2
  let acc4 : Nat × List ThreatFlag :=
    match ind.urgencyLanguage with
    | some ul =>
      if ul.hasUrgencyLanguage then
        (acc3.1 + ul.score, acc3.2 ++ (ul.matchList.take 5).map fun m =>
          ⟨str "urgency_" ++ m.category,
            str "Detected " ++ m.category ++ str " pattern", m.score⟩)
      else acc3
    | none => acc3
  let acc5 : Nat × List ThreatFlag :=
    match ind.pageCharacteristics with
    | some pc =>
      if pc.suspiciousCharacteristics.length ≠ 0 then
        (acc4.1 + pc.score, acc4.2 ++ pc.suspiciousCharacteristics.map fun c =>
          ⟨c.type, c.detail, pc.score / pc.suspiciousCharacteristics.length⟩)
      else acc4
    | none => acc4
  let totalScore := min acc5.1 100
  ⟨totalScore, acc5.2, classifyThreatLevel totalScore, recommendFor totalScore⟩

/-- The result of `analyzePage`. -/
structure PageAnalysisResult where
  url : Str
  domain : Str
  isPhishing : Bool
  threatScore : Nat
  threatLevel : ThreatLevel
  recommendation : Recommendation
  flags : List ThreatFlag
  indicators : Indicators
deriving Repr, DecidableEq

/-- `analyzePage(pageData)` (src/unnamed/part_001): hostname from the URL
(falling back to `pageData.domain` when unparsable), the page detectors,
`analyzeFormActions` only when a login form exists, then
`calculatePhishingScore`.  The `url:timestamp` memo cache is not modelled
(a hit returns a value this computation produced earlier). -/
def analyzePage (env : HostEnv) (phishingPatterns : Option PhishingPatterns)
    (brandDatabasePhishing : Option (List Brand)) (pd : PageData) :
    PageAnalysisResult :=
  let currentDomain :=
    match env.parseUrl pd.url with
    | some u => u.hostname
    | none => pd.domain
  let loginForms := detectLoginForms pd
  let brandImpersonation :=
    detectBrandImpersonation env.regexTest brandDatabasePhishing (some pd)
      currentDomain
  let urgencyLanguage := detectUrgencyLanguage env phishingPatterns pd.textContent
  let pageCharacteristics := analyzePageCharacteristics (some pd)
  let formActions :=
    if loginForms.hasLoginForm then
      some (analyzeFormActions env loginForms.forms currentDomain)
    else none
  let ind : Indicators :=
    ⟨some loginForms, formActions, some brandImpersonation,
      some urgencyLanguage, some pageCharacteristics⟩
  let assessment := calculatePhishingScore ind
  ⟨pd.url, currentDomain, THREAT_THRESHOLDS_MEDIUM ≤ assessment.totalScore,
    assessment.totalScore, assessment.threatLevel, assessment.recommendation,
    assessment.flags, ind⟩

/-! ## Security Core coordinator (src/unnamed/part_003) -/

/-- `isWhitelisted(domain)`: exact match, dot-suffix match, or `*.`-wildcard
match against the whitelist. -/
def isWhitelisted (securityWhitelist : List Str) (domain : Str) : Bool :=
  if domain = [] then false
  else
    let domainLower := jsToLower domain
    securityWhitelist.any fun whitelisted =>
      if jsStartsWith whitelisted (str "*.") then
        let baseDomain := whitelisted.drop 2
        domainLower = baseDomain || jsEndsWith domainLower ('.' :: baseDomain)
      else domainLower = whitelisted || jsEndsWith domainLower ('.' :: whitelisted)

/-- The loaded state of all security modules the coordinator dispatches to.
The `typeof f === 'function'` capability probes hold (all modules are
loaded together by `initializeSecurity`); an unloaded dataset inside a
module is still `none`. -/
structure SecurityModules where
  host : HostEnv
  urlState : UrlAnalyzerState
  adultKeywords : Option AdultKeywordsData
  contentFilterSettings : Option ContentSettings
  trackerDomains : Option (List (Str × List Str))
  privacySettings : Option PrivacySettings
  trackerBloomFilter : Option BloomFilter
  phishingPatterns : Option PhishingPatterns
  brandDatabasePhishing : Option (List Brand)
  securityWhitelist : List Str

/-- The `analysis` payload of `analyzeUrlSecurity`. -/
structure SecurityAnalysisParts where
  url : Option UrlAssessment
  content : Option CheckUrlResult
  privacy : Option TrackerResult
deriving Repr, DecidableEq

/-- The combined result of `analyzeUrlSecurity`. -/
structure UrlSecurityResult where
  url : Str
  isWhitelisted : Bool
  threatScore : Nat
  threatLevel : ThreatLevel
  recommendation : Recommendation
  flags : List ThreatFlag
  analysis : SecurityAnalysisParts
deriving Repr, DecidableEq

/-- `analyzeUrlSecurity(url)`: parse (an unparsable URL is caught and the
initialised zero result returned), short-circuit on the whitelist, then run
the URL analyzer (score merged by `max`), the content filter (score merged
by `max` when blocked), and the tracker classifier (flag only — its score
is carried inside the flag, not merged into `threatScore`); classify and
recommend from the merged score.  The statistics counters and their
periodic persistence are process bookkeeping that never affects the
returned result and are not modelled. -/
def analyzeUrlSecurity (M : SecurityModules) (url : Str) : UrlSecurityResult :=
  let base : UrlSecurityResult :=
    ⟨url, false, 0, ThreatLevel.NONE, Recommendation.ALLOW, [],
      ⟨none, none, none⟩⟩
  match M.host.parseUrl url with
  | none => base
  | some urlObj =>
    let domain := urlObj.hostname
    if isWhitelisted M.securityWhitelist domain then
      { base with isWhitelisted := true }
    else
      let urlA := analyzeUrl M.host M.urlState url
      let flags1 := base.flags ++ urlA.flags
      let score1 := max base.threatScore urlA.threatScore
      let contentA := checkUrl M.host M.adultKeywords M.contentFilterSettings url
      let acc2 :=
        if contentA.isBlocked then
          (flags1 ++ [⟨str "content_blocked", contentA.reason.getD [],
            contentA.score⟩], max score1 contentA.score)
        else (flags1, score1)
      let privacyA := isTrackerDomain M.trackerDomains M.privacySettings
        M.trackerBloomFilter domain
      let flags3 :=
        if privacyA.isTracker then
          acc2.1 ++ [⟨str "tracker_detected",
            str "Tracker categories: " ++
              List.intercalate (str ", ") privacyA.categories, 10⟩]
        else acc2.1
      ⟨url, false, acc2.2, classifyThreatLevel acc2.2, recommendFor acc2.2,
        flags3, ⟨some urlA, some contentA, some privacyA⟩⟩

/-- The `analysis` payload of `analyzePageSecurity`. -/
structure PageSecurityAnalysisParts where
  phishing : Option PageAnalysisResult
  content : Option PageContentResult
deriving Repr, DecidableEq

/-- The combined result of `analyzePageSecurity`. -/
structure PageSecurityResult where
  url : Str
  isWhitelisted : Bool
  isPhishing : Bool
  threatScore : Nat
  threatLevel : ThreatLevel
  recommendation : Recommendation
  flags : List ThreatFlag
  analysis : PageSecurityAnalysisParts
deriving Repr, DecidableEq

/-- `analyzePageSecurity(pageData)`: domain from the page URL (falling back
to `pageData.domain`), whitelist short-circuit, the phishing page analysis
and the page-content categoriser, both merged by `max`; classify and
recommend from the merged score.  Statistics counters as above. -/
def analyzePageSecurity (M : SecurityModules) (pd : PageData) :
    PageSecurityResult :=
  let base : PageSecurityResult :=
    ⟨pd.url, false, false, 0, ThreatLevel.NONE, Recommendation.ALLOW, [],
      ⟨none, none⟩⟩
  let domain :=
    match M.host.parseUrl pd.url with
    | some u => u.hostname
    | none => pd.domain
  if isWhitelisted M.securityWhitelist domain then
    { base with isWhitelisted := true }
  else
    let phishing := analyzePage M.host M.phishingPatterns
      M.brandDatabasePhishing pd
    let flags1 := base.flags ++ phishing.flags
    let score1 := max base.threatScore phishing.threatScore
    let contentA := analyzePageContent M.host M.adultKeywords
      M.contentFilterSettings (some pd)
    let acc2 :=
      if contentA.shouldBlock then
        (flags1 ++ [⟨str "content_violation",
          str "Blocked categories: " ++
            List.intercalate (str ", ") contentA.matchedCategories,
          contentA.score⟩], max score1 contentA.score)
      else (flags1, score1)
    ⟨pd.url, false, phishing.isPhishing, acc2.2, classifyThreatLevel acc2.2,
      recommendFor acc2.2, acc2.1, ⟨some phishing, some contentA⟩⟩


/-! ## Specification-side predicates and concrete fixtures

`TypoEligible` restates, for the characterisation theorem, when a
`(brand, keyword)` candidate is flagged; the `eg…` values are concrete
instantiations used by witnesses. -/

/-- A candidate `(brand, keyword)` is eligible against `domain` (with
`dwt` the domain without its TLD) when the keyword is not literally
contained in `dwt`, its edit distance from `dwt` is within the threshold,
and `domain` is not on the brand's legitimate-domain list. -/
def TypoEligible (regexTest : Str → Str → Bool) (domain dwt : Str)
    (b : Brand) (kw : Str) : Prop :=
  jsIncludes dwt kw = false ∧
  levenshteinDistance dwt kw ≤ TYPOSQUATTING_THRESHOLD ∧
  isLegitimateDomain regexTest b domain = false

/-- The loop invariant of `detectTyposquatting`'s candidate scan: either the
result is still the initial one and no processed candidate was eligible, or
it is flagged with the minimum eligible distance seen so far and the score
derived from it. -/
def TypoInv (regexTest : Str → Str → Bool) (domain dwt : Str)
    (processed : List (Brand × Str)) (r : TypoResult) : Prop :=
  (r = typoInit ∧ ∀ p ∈ processed, ¬ TypoEligible regexTest domain dwt p.1 p.2) ∨
  (∃ d, r.isTyposquatting = true ∧ r.distance = some d ∧
    r.score = (TYPOSQUATTING_THRESHOLD - d + 1) * 20 ∧
    (∃ p ∈ processed, TypoEligible regexTest domain dwt p.1 p.2 ∧
      levenshteinDistance dwt p.2 = d) ∧
    (∀ p ∈ processed, TypoEligible regexTest domain dwt p.1 p.2 →
      d ≤ levenshteinDistance dwt p.2))

/-- Whether one pattern-table entry fires on the lowered text: its regex
compiles and matches at least once. -/
def urgencyMatched (env : HostEnv) (textLower : Str) (p : PatternEntry) : Bool :=
  env.regexValid p.pattern && env.matchCount p.pattern textLower != 0

/-- A host environment where nothing parses and no regex matches. -/
def emptyHostEnv : HostEnv :=
  ⟨fun _ => none, fun _ _ => none, fun _ _ => false, fun _ => false,
    fun _ _ => 0, fun _ => false⟩

/-- URL-analyzer state with no dataset loaded. -/
def emptyUrlState : UrlAnalyzerState := ⟨none, none, none, none⟩

/-- Security modules with nothing loaded and an empty whitelist. -/
def emptyModules : SecurityModules :=
  ⟨emptyHostEnv, emptyUrlState, none, none, none, none, none, none, none, []⟩

/-- A parser recognising exactly the two example URLs of the witnesses. -/
def egParse : Str → Option UrlParts := fun u =>
  if u = str "https://example.com/" then
    some ⟨str "example.com", str "https:"⟩
  else if u = str "http://tracker.example/" then
    some ⟨str "tracker.example", str "http:"⟩
  else none

/-- Modules with `example.com` whitelisted. -/
def egModules : SecurityModules :=
  { emptyModules with
    host := { emptyHostEnv with parseUrl := egParse }
    securityWhitelist := [str "example.com"] }

/-- A minimal page payload on `example.com`. -/
def egPage : PageData :=
  ⟨str "https://example.com/", str "example.com", str "Title", str "text",
    [], [], false, false, false, none, []⟩

/-- Modules knowing `tracker.example` as an enabled advertising tracker. -/
def trackerModules : SecurityModules :=
  { emptyModules with
    host := { emptyHostEnv with parseUrl := egParse }
    trackerDomains := some [(str "advertising", [str "tracker.example"])]
    privacySettings := some ⟨true, true, [(str "advertising", true)]⟩ }

/-- Pattern tables holding a single impersonation-phrasing pattern. -/
def egPhishingPatterns : PhishingPatterns :=
  ⟨[], [], [], [⟨str "support team", str "impersonation", 30⟩]⟩

/-- An environment whose regex engine matches exactly `support team`. -/
def egUrgencyEnv : HostEnv :=
  { emptyHostEnv with
    regexValid := fun _ => true
    matchCount := fun p _ => if p = str "support team" then 1 else 0 }

/-! # Theorems

All definitions precede this point; everything from here on is proof. -/

/-! ### Bit-array lemmas -/

theorem length_setBitArr (arr : List Nat) (p : Nat) :
    (setBitArr arr p).length = arr.length := by
  simp [setBitArr]

theorem getBitArr_eq_testBit (arr : List Nat) (p : Nat) :
    getBitArr arr p = (arr.getD (p / 8) 0).testBit (p % 8) := by
  have h : arr.getD (p / 8) 0 &&& (1 <<< (p % 8)) =
      ((arr.getD (p / 8) 0).testBit (p % 8)).toNat * 2 ^ (p % 8) := by
    rw [Nat.one_shiftLeft, Nat.and_two_pow]
  simp only [getBitArr, h]
  cases hb : (arr.getD (p / 8) 0).testBit (p % 8) <;>
    simp [(Nat.two_pow_pos (p % 8)).ne']

theorem getD_setBitArr_self (arr : List Nat) (p : Nat)
    (h : p / 8 < arr.length) :
    (setBitArr arr p).getD (p / 8) 0 =
      (arr.getD (p / 8) 0 ||| (1 <<< (p % 8))) % 256 := by
  simp only [setBitArr, List.getD_eq_getElem?_getD,
    List.getElem?_set_eq_of_lt _ h]
  rfl

theorem getBitArr_setBitArr_self (arr : List Nat) (p : Nat)
    (h : p / 8 < arr.length) : getBitArr (setBitArr arr p) p = true := by
  rw [getBitArr_eq_testBit, getD_setBitArr_self arr p h]
  have h256 : (256 : Nat) = 2 ^ 8 := by norm_num
  rw [h256, Nat.testBit_mod_two_pow, Nat.one_shiftLeft, Nat.testBit_or,
    Nat.testBit_two_pow_self]
  simp [Nat.mod_lt p (by norm_num : (0:Nat) < 8)]

theorem getBitArr_setBitArr_mono (arr : List Nat) (p q : Nat)
    (h : getBitArr arr q = true) : getBitArr (setBitArr arr p) q = true := by
  rw [getBitArr_eq_testBit] at h ⊢
  by_cases hb : q / 8 = p / 8
  · by_cases hlt : p / 8 < arr.length
    · rw [hb, getD_setBitArr_self arr p hlt]
      have h256 : (256 : Nat) = 2 ^ 8 := by norm_num
      rw [h256, Nat.testBit_mod_two_pow, Nat.one_shiftLeft, Nat.testBit_or]
      rw [hb] at h
      simp only [List.getD_eq_getElem?_getD] at h ⊢
      simp [h, Nat.mod_lt q (by norm_num : (0:Nat) < 8)]
    · have : setBitArr arr p = arr := by
        simp [setBitArr, List.set_eq_of_length_le (Nat.le_of_not_lt hlt)]
      rw [this]; exact hb ▸ h
  · have : (setBitArr arr p).getD (q / 8) 0 = arr.getD (q / 8) 0 := by
      simp [setBitArr, List.getD_eq_getElem?_getD, List.getElem?_set_ne (Ne.symm hb)]
    rw [this]; exact h

theorem getBitArr_foldl_setBitArr_mono (ps : List Nat) (arr : List Nat) (q : Nat)
    (h : getBitArr arr q = true) : getBitArr (ps.foldl setBitArr arr) q = true := by
  induction ps generalizing arr with
  | nil => exact h
  | cons p ps ih => exact ih _ (getBitArr_setBitArr_mono arr p q h)

theorem length_foldl_setBitArr (ps : List Nat) (arr : List Nat) :
    (ps.foldl setBitArr arr).length = arr.length := by
  induction ps generalizing arr with
  | nil => rfl
  | cons p ps ih => rw [List.foldl_cons, ih, length_setBitArr]

theorem getBitArr_foldl_setBitArr_of_mem (ps : List Nat) (arr : List Nat) (q : Nat)
    (hq : q ∈ ps) (hlen : ∀ p ∈ ps, p / 8 < arr.length) :
    getBitArr (ps.foldl setBitArr arr) q = true := by
  induction ps generalizing arr with
  | nil => cases hq
  | cons p ps ih =>
    rw [List.foldl_cons]
    rcases List.mem_cons.mp hq with h | h
    · subst h
      exact getBitArr_foldl_setBitArr_mono ps _ q
        (getBitArr_setBitArr_self arr q (hlen q (List.mem_cons_self q ps)))
    · refine ih _ h fun r hr => ?_
      rw [length_setBitArr]
      exact hlen r (List.mem_cons_of_mem p hr)

theorem getHashPositions_congr {bf bf' : BloomFilter} (item : List Nat)
    (h1 : bf'.size = bf.size) (h2 : bf'.hashCount = bf.hashCount) :
    bf'.getHashPositions item = bf.getHashPositions item := by
  simp [BloomFilter.getHashPositions, h1, h2]

theorem getBitArr_add_mono (bf : BloomFilter) (it : List Nat) (q : Nat)
    (h : getBitArr bf.bitArray q = true) :
    getBitArr (bf.add it).bitArray q = true :=
  getBitArr_foldl_setBitArr_mono _ _ _ h

theorem getBitArr_foldl_add_mono (items : List (List Nat)) (bf : BloomFilter)
    (q : Nat) (h : getBitArr bf.bitArray q = true) :
    getBitArr (items.foldl BloomFilter.add bf).bitArray q = true := by
  induction items generalizing bf with
  | nil => exact h
  | cons it items ih => exact ih _ (getBitArr_add_mono bf it q h)

theorem size_foldl_add (items : List (List Nat)) (bf : BloomFilter) :
    (items.foldl BloomFilter.add bf).size = bf.size := by
  induction items generalizing bf with
  | nil => rfl
  | cons it items ih => exact ih _

theorem hashCount_foldl_add (items : List (List Nat)) (bf : BloomFilter) :
    (items.foldl BloomFilter.add bf).hashCount = bf.hashCount := by
  induction items generalizing bf with
  | nil => rfl
  | cons it items ih => exact ih _

/-! ### Claim C1 -/

/-- C1 (amended): the Membership Filter has no false negatives on every
filter whose bit array is positive-sized and covers its `size` bits (as the
constructor allocates for any positive `size`): after `add item` and any
further sequence of `add` calls, `contains item` returns `true`. -/
theorem bloom_no_false_negatives (bf : BloomFilter) (item : List Nat)
    (others : List (List Nat)) (hsize : 0 < bf.size)
    (hlen : (bf.size + 7) / 8 ≤ bf.bitArray.length) :
    ((bf.add item).addAll others).contains item = true := by
  unfold BloomFilter.addAll BloomFilter.contains
  have hs : (others.foldl BloomFilter.add (bf.add item)).size = bf.size := by
    rw [size_foldl_add]; rfl
  have hh : (others.foldl BloomFilter.add (bf.add item)).hashCount =
      bf.hashCount := by
    rw [hashCount_foldl_add]; rfl
  rw [getHashPositions_congr item hs hh, List.all_eq_true]
  intro p hp
  apply getBitArr_foldl_add_mono
  show getBitArr ((bf.getHashPositions item).foldl setBitArr bf.bitArray) p = true
  refine getBitArr_foldl_setBitArr_of_mem _ _ _ hp fun r hr => ?_
  simp only [BloomFilter.getHashPositions, List.mem_map, List.mem_range] at hr
  obtain ⟨i, _, hreq⟩ := hr
  have hrlt : r < bf.size := hreq ▸ Nat.mod_lt _ hsize
  omega

/-- Witness for C1's amended theorem at a concrete filter. -/
theorem bloom_no_false_negatives_witness :
    0 < (BloomFilter.create 64 3).size ∧
    ((BloomFilter.create 64 3).size + 7) / 8 ≤
      (BloomFilter.create 64 3).bitArray.length ∧
    (((BloomFilter.create 64 3).add [97]).addAll [[98], [99]]).contains [97]
      = true :=
  ⟨by decide, by decide,
    bloom_no_false_negatives (BloomFilter.create 64 3) [97] [[98], [99]]
      (by decide) (by decide)⟩

/-- Counterexample to C1 as stated over *every* BloomFilter state: the
constructor accepts `size = 0`, and on that filter `add` sets no bit (the
JavaScript positions are `NaN`, all typed-array accesses miss), so
`contains` returns `false` for an item that was added. -/
theorem bloom_false_negative_size_zero :
    (((BloomFilter.create 0 7).add [97]).addAll []).contains [97] = false := by
  decide


theorem levMatrix_succ_succ (a b : Str) (i j : Nat) :
    levMatrix a b (i + 1) (j + 1) =
      if b.getD i ' ' = a.getD j ' ' then levMatrix a b i j
      else
        min (levMatrix a b i j + 1)
          (min (levMatrix a b (i + 1) j + 1) (levMatrix a b i (j + 1) + 1)) := by
  simp only [levMatrix, levRowNext]

theorem levMatrix_symm (a b : Str) :
    ∀ n i j, i + j ≤ n → levMatrix a b i j = levMatrix b a j i := by
  intro n
  induction n with
  | zero =>
    intro i j h
    have hi : i = 0 := by omega
    have hj : j = 0 := by omega
    subst hi; subst hj; simp [levMatrix]
  | succ n ih =>
    intro i j h
    match i, j with
    | 0, 0 => simp [levMatrix]
    | 0, j + 1 => simp [levMatrix, levRowNext]
    | i + 1, 0 => simp [levMatrix, levRowNext]
    | i + 1, j + 1 =>
      have h1 : levMatrix a b i j = levMatrix b a j i := ih i j (by omega)
      have h2 : levMatrix a b (i + 1) j = levMatrix b a j (i + 1) :=
        ih (i + 1) j (by omega)
      have h3 : levMatrix a b i (j + 1) = levMatrix b a (j + 1) i :=
        ih i (j + 1) (by omega)
      rw [levMatrix_succ_succ, levMatrix_succ_succ]
      by_cases hc : b.getD i ' ' = a.getD j ' '
      · rw [if_pos hc, if_pos hc.symm]; exact h1
      · rw [if_neg hc, if_neg fun hh => hc hh.symm, h1, h2, h3]
        omega

theorem levMatrix_diag (a : Str) (i : Nat) : levMatrix a a i i = 0 := by
  induction i with
  | zero => simp [levMatrix]
  | succ i ih => rw [levMatrix_succ_succ]; simp [ih]

/-! ### Claim C9 -/

/-- C9: `levenshteinDistance` is symmetric, and zero on identical strings. -/
theorem levenshtein_symm_and_diag :
    (∀ a b : Str, levenshteinDistance a b = levenshteinDistance b a) ∧
    (∀ a : Str, levenshteinDistance a a = 0) := by
  constructor
  · intro a b
    unfold levenshteinDistance
    by_cases h : a.length = 0 ∨ b.length = 0
    · rw [if_pos h, if_pos (Or.symm h), Nat.max_comm]
    · rw [if_neg h, if_neg fun hh => h (Or.symm hh)]
      exact levMatrix_symm a b (b.length + a.length) _ _ le_rfl
  · intro a
    unfold levenshteinDistance
    by_cases h : a.length = 0 ∨ a.length = 0
    · rw [if_pos h]; rcases h with h | h <;> simp [h]
    · rw [if_neg h]; exact levMatrix_diag a a.length


/-! ### Claim C4 -/

/-- C4: on the score range `[0, 100]`, `classifyThreatLevel` is exactly the
deterministic step function — CRITICAL for `s ≥ 90`, HIGH for `70 ≤ s < 90`,
MEDIUM for `40 ≤ s < 70`, LOW for `1 ≤ s < 40`, NONE for `s = 0` — and the
aggregators' recommendation is BLOCK from 70 (the CRITICAL range included),
WARN on `[40, 70)`, and ALLOW below 40. -/
theorem threat_classification_characterisation (s : Nat) (hs : s ≤ 100) :
    (classifyThreatLevel s = ThreatLevel.CRITICAL ↔ 90 ≤ s) ∧
    (classifyThreatLevel s = ThreatLevel.HIGH ↔ 70 ≤ s ∧ s < 90) ∧
    (classifyThreatLevel s = ThreatLevel.MEDIUM ↔ 40 ≤ s ∧ s < 70) ∧
    (classifyThreatLevel s = ThreatLevel.LOW ↔ 1 ≤ s ∧ s < 40) ∧
    (classifyThreatLevel s = ThreatLevel.NONE ↔ s = 0) ∧
    (recommendFor s = Recommendation.BLOCK ↔ 70 ≤ s) ∧
    (recommendFor s = Recommendation.WARN ↔ 40 ≤ s ∧ s < 70) ∧
    (recommendFor s = Recommendation.ALLOW ↔ s < 40) := by
  unfold classifyThreatLevel recommendFor THREAT_THRESHOLDS_CRITICAL
    THREAT_THRESHOLDS_HIGH THREAT_THRESHOLDS_MEDIUM THREAT_THRESHOLDS_LOW
  split_ifs <;> simp_all <;> omega

/-- Witness for C4 at score 55. -/
theorem threat_classification_witness :
    classifyThreatLevel 55 = ThreatLevel.MEDIUM ∧
    recommendFor 55 = Recommendation.WARN :=
  ⟨((threat_classification_characterisation 55 (by norm_num)).2.2.1).mpr
      (by norm_num),
    ((threat_classification_characterisation 55 (by norm_num)).2.2.2.2.2.2.1).mpr
      (by norm_num)⟩

/-! ### Claim C5 -/

/-- C5: on any string the URL parser rejects, `analyzeUrl` does not throw:
it returns the zero assessment — score 0, level NONE, recommendation
ALLOW — whose flag list is exactly the `analysis_error` flag with score
0. -/
theorem analyzeUrl_unparsable_error_flag (env : HostEnv)
    (st : UrlAnalyzerState) (url : Str) (h : env.parseUrl url = none) :
    (analyzeUrl env st url).threatScore = 0 ∧
    (analyzeUrl env st url).threatLevel = ThreatLevel.NONE ∧
    (analyzeUrl env st url).recommendation = Recommendation.ALLOW ∧
    (analyzeUrl env st url).flags =
      [⟨str "analysis_error", str "Failed to analyze URL", 0⟩] := by
  simp [analyzeUrl, h]

/-- Witness for C5 on a concrete unparsable string. -/
theorem analyzeUrl_unparsable_error_flag_witness :
    (analyzeUrl emptyHostEnv emptyUrlState (str "not a url")).threatScore = 0 ∧
    (analyzeUrl emptyHostEnv emptyUrlState (str "not a url")).threatLevel =
      ThreatLevel.NONE ∧
    (analyzeUrl emptyHostEnv emptyUrlState (str "not a url")).recommendation =
      Recommendation.ALLOW ∧
    (analyzeUrl emptyHostEnv emptyUrlState (str "not a url")).flags =
      [⟨str "analysis_error", str "Failed to analyze URL", 0⟩] :=
  analyzeUrl_unparsable_error_flag emptyHostEnv emptyUrlState (str "not a url")
    rfl

/-! ### Claim C3 -/

/-- C3: a domain satisfying `isWhitelisted` short-circuits both
coordinators before any detector runs: the returned assessment keeps threat
score 0, recommendation ALLOW and an empty flag list, with the
`isWhitelisted` marker set, for every module state. -/
theorem whitelist_short_circuit :
    (∀ (M : SecurityModules) (url : Str) (parts : UrlParts),
      M.host.parseUrl url = some parts →
      isWhitelisted M.securityWhitelist parts.hostname = true →
      (analyzeUrlSecurity M url).threatScore = 0 ∧
      (analyzeUrlSecurity M url).recommendation = Recommendation.ALLOW ∧
      (analyzeUrlSecurity M url).flags = [] ∧
      (analyzeUrlSecurity M url).isWhitelisted = true) ∧
    (∀ (M : SecurityModules) (pd : PageData),
      isWhitelisted M.securityWhitelist
        (match M.host.parseUrl pd.url with
          | some u => u.hostname
          | none => pd.domain) = true →
      (analyzePageSecurity M pd).threatScore = 0 ∧
      (analyzePageSecurity M pd).recommendation = Recommendation.ALLOW ∧
      (analyzePageSecurity M pd).flags = [] ∧
      (analyzePageSecurity M pd).isWhitelisted = true) := by
  constructor
  · intro M url parts hp hw
    simp [analyzeUrlSecurity, hp, hw]
  · intro M pd hw
    simp [analyzePageSecurity, hw]

/-- Witness for C3 on a concrete whitelisted URL and page. -/
theorem whitelist_short_circuit_witness :
    ((analyzeUrlSecurity egModules (str "https://example.com/")).threatScore = 0 ∧
      (analyzeUrlSecurity egModules (str "https://example.com/")).recommendation =
        Recommendation.ALLOW ∧
      (analyzeUrlSecurity egModules (str "https://example.com/")).flags = [] ∧
      (analyzeUrlSecurity egModules (str "https://example.com/")).isWhitelisted =
        true) ∧
    ((analyzePageSecurity egModules egPage).threatScore = 0 ∧
      (analyzePageSecurity egModules egPage).recommendation =
        Recommendation.ALLOW ∧
      (analyzePageSecurity egModules egPage).flags = [] ∧
      (analyzePageSecurity egModules egPage).isWhitelisted = true) :=
  ⟨whitelist_short_circuit.1 egModules (str "https://example.com/")
      ⟨str "example.com", str "https:"⟩ (by decide) (by decide),
    whitelist_short_circuit.2 egModules egPage (by decide)⟩

/-! ### Claim C10 -/

/-- C10: whenever the lowercase current domain contains any entry of the
built-in trusted-domain list as a substring anywhere (for example a hostname
merely embedding `google.com`), `detectBrandImpersonation` returns the
neutral result — not impersonating, no brand, no indicators, score 0 —
without any brand-keyword or logo check. -/
theorem trusted_substring_skips_brand_checks (regexTest : Str → Str → Bool)
    (db : Option (List Brand)) (pd : Option PageData) (currentDomain : Str)
    (h : ∃ t ∈ trustedDomains, jsIncludes (jsToLower currentDomain) t = true) :
    detectBrandImpersonation regexTest db pd currentDomain =
      ⟨false, none, [], 0⟩ := by
  cases db with
  | none => rfl
  | some brands =>
    cases pd with
    | none => rfl
    | some pd =>
      obtain ⟨t, ht, hinc⟩ := h
      have hany : (trustedDomains.any fun trusted =>
          jsToLower currentDomain = trusted ||
          jsEndsWith (jsToLower currentDomain) ('.' :: trusted) ||
          jsIncludes (jsToLower currentDomain) trusted) = true := by
        rw [List.any_eq_true]
        exact ⟨t, ht, by simp [hinc]⟩
      simp [detectBrandImpersonation, hany]

/-- Witness for C10 on a domain embedding `google.com` as a substring. -/
theorem trusted_substring_skips_brand_checks_witness :
    detectBrandImpersonation (fun _ _ => false)
      (some [⟨str "Google", [str "google"], [str "google.com"], str "critical"⟩])
      (some egPage) (str "notgoogle.com.evil.example") = ⟨false, none, [], 0⟩ :=
  trusted_substring_skips_brand_checks _ _ _ _ (by decide)

/-! ### Score-bound lemmas for Claim C2 -/

theorem checkDomainBlocklist_score_le (ak : Option AdultKeywordsData)
    (cfg : Option ContentSettings) (domain : Str) :
    (checkDomainBlocklist ak cfg domain).score ≤ 100 := by
  unfold checkDomainBlocklist
  cases ak <;> cases cfg <;> simp <;> split_ifs <;> simp

theorem analyzeUrlKeywords_score_le (ak : Option AdultKeywordsData)
    (cfg : Option ContentSettings) (url : Str) :
    (analyzeUrlKeywords ak cfg url).score ≤ 100 := by
  unfold analyzeUrlKeywords
  cases ak with
  | none => cases cfg <;> simp
  | some a =>
    cases cfg with
    | none => simp
    | some c =>
      by_cases h : url = []
      · simp [h]
      · simp only [if_neg h]
        exact Nat.min_le_right _ _

theorem getCategoryForUrl_score_le (env : HostEnv)
    (ak : Option AdultKeywordsData) (cfg : Option ContentSettings)
    (url : Str) : (getCategoryForUrl env ak cfg url).score ≤ 100 := by
  unfold getCategoryForUrl
  cases h : env.parseUrl url with
  | none => simp
  | some u =>
    by_cases h1 : (checkDomainBlocklist ak cfg u.hostname).isBlocked
    · simpa [h1] using checkDomainBlocklist_score_le ak cfg u.hostname
    · by_cases h2 : (analyzeUrlKeywords ak cfg url).matchedCategories = []
      · simp [h1, h2]
      · simpa [h1, h2] using analyzeUrlKeywords_score_le ak cfg url

theorem checkUrl_score_le (env : HostEnv) (ak : Option AdultKeywordsData)
    (cfg : Option ContentSettings) (url : Str) :
    (checkUrl env ak cfg url).score ≤ 100 := by
  unfold checkUrl
  by_cases h : (getCategoryForUrl env ak cfg url).shouldBlock
  · simpa [h] using getCategoryForUrl_score_le env ak cfg url
  · simp [h]

theorem analyzeUrl_threatScore_le (env : HostEnv) (st : UrlAnalyzerState)
    (url : Str) : (analyzeUrl env st url).threatScore ≤ 100 := by
  unfold analyzeUrl
  cases h : env.parseUrl url with
  | none => simp
  | some u => exact Nat.min_le_right _ _

theorem calculatePhishingScore_totalScore_le (ind : Indicators) :
    (calculatePhishingScore ind).totalScore ≤ 100 :=
  Nat.min_le_right _ _

theorem analyzePage_threatScore_le (env : HostEnv)
    (pp : Option PhishingPatterns) (db : Option (List Brand)) (pd : PageData) :
    (analyzePage env pp db pd).threatScore ≤ 100 := by
  unfold analyzePage
  cases h : env.parseUrl pd.url <;>
    · dsimp only
      exact calculatePhishingScore_totalScore_le _

theorem analyzePageContent_score_le (env : HostEnv)
    (ak : Option AdultKeywordsData) (cfg : Option ContentSettings)
    (pd : Option PageData) : (analyzePageContent env ak cfg pd).score ≤ 100 := by
  unfold analyzePageContent
  cases ak <;> cases pd <;> cases cfg <;> simp

theorem analyzeUrlSecurity_threatScore_le (M : SecurityModules) (url : Str) :
    (analyzeUrlSecurity M url).threatScore ≤ 100 := by
  unfold analyzeUrlSecurity
  cases h : M.host.parseUrl url with
  | none => simp
  | some u =>
    by_cases hw : isWhitelisted M.securityWhitelist u.hostname
    · simp [hw]
    · have h1 := analyzeUrl_threatScore_le M.host M.urlState url
      have h2 := checkUrl_score_le M.host M.adultKeywords M.contentFilterSettings url
      by_cases hb : (checkUrl M.host M.adultKeywords M.contentFilterSettings url).isBlocked
      · simp only [hw, hb, if_neg, if_pos, if_false, if_true]
        simp [hb, hw]
        omega
      · simp [hb, hw]
        omega

theorem analyzePageSecurity_threatScore_le (M : SecurityModules)
    (pd : PageData) : (analyzePageSecurity M pd).threatScore ≤ 100 := by
  unfold analyzePageSecurity
  by_cases hw : isWhitelisted M.securityWhitelist
      (match M.host.parseUrl pd.url with
        | some u => u.hostname
        | none => pd.domain)
  · simp [hw]
  · have h1 := analyzePage_threatScore_le M.host M.phishingPatterns
      M.brandDatabasePhishing pd
    have h2 := analyzePageContent_score_le M.host M.adultKeywords
      M.contentFilterSettings (some pd)
    by_cases hb : (analyzePageContent M.host M.adultKeywords
        M.contentFilterSettings (some pd)).shouldBlock
    · simp [hb, hw]
      omega
    · simp [hb, hw]
      omega

/-! ### Claim C2 -/

/-- C2: the `threatScore` of every assessment is an integer in `[0, 100]`
for every input — scores are natural numbers, so the lower bound is
structural, and both the URL analysis path (`analyzeUrl`,
`analyzeUrlSecurity`) and the page analysis path (`calculatePhishingScore`,
`analyzePageSecurity`) cap at 100 for every host behaviour, dataset,
settings and (possibly adversarial, empty or unparsable) input. -/
theorem threatScore_in_range :
    (∀ env st url, (analyzeUrl env st url).threatScore ≤ 100) ∧
    (∀ ind, (calculatePhishingScore ind).totalScore ≤ 100) ∧
    (∀ M url, (analyzeUrlSecurity M url).threatScore ≤ 100) ∧
    (∀ M pd, (analyzePageSecurity M pd).threatScore ≤ 100) :=
  ⟨analyzeUrl_threatScore_le, calculatePhishingScore_totalScore_le,
    analyzeUrlSecurity_threatScore_le, analyzePageSecurity_threatScore_le⟩

/-! ### Claim C7 -/

/-- C7 (amended): when the Tracker Classifier identifies the analysed URL's
domain as a tracker (its category enabled in settings), the aggregated
result of `analyzeUrlSecurity` includes a `tracker_detected` flag carrying
the fixed per-hit score 10; the flag's score is however not added into the
URL-level `threatScore`, which remains exactly the maximum of the
URL-analysis score and the content-filter score, independently of the
content-category path. -/
theorem tracker_flag_without_score (M : SecurityModules) (url : Str)
    (parts : UrlParts) (hp : M.host.parseUrl url = some parts)
    (hw : isWhitelisted M.securityWhitelist parts.hostname = false)
    (ht : (isTrackerDomain M.trackerDomains M.privacySettings
      M.trackerBloomFilter parts.hostname).isTracker = true) :
    (⟨str "tracker_detected",
      str "Tracker categories: " ++ List.intercalate (str ", ")
        (isTrackerDomain M.trackerDomains M.privacySettings
          M.trackerBloomFilter parts.hostname).categories, 10⟩ : ThreatFlag) ∈
      (analyzeUrlSecurity M url).flags ∧
    (analyzeUrlSecurity M url).threatScore =
      max (analyzeUrl M.host M.urlState url).threatScore
        (if (checkUrl M.host M.adultKeywords M.contentFilterSettings
            url).isBlocked then
          (checkUrl M.host M.adultKeywords M.contentFilterSettings url).score
        else 0) := by
  simp only [analyzeUrlSecurity, hp]
  by_cases hb : (checkUrl M.host M.adultKeywords M.contentFilterSettings
      url).isBlocked
  · simp [hw, ht, hb]
  · simp [hw, ht, hb]

/-- Witness for C7's amended theorem on a concrete tracker domain. -/
theorem tracker_flag_without_score_witness :
    (⟨str "tracker_detected",
      str "Tracker categories: " ++ List.intercalate (str ", ")
        (isTrackerDomain trackerModules.trackerDomains
          trackerModules.privacySettings trackerModules.trackerBloomFilter
          (str "tracker.example")).categories, 10⟩ : ThreatFlag) ∈
      (analyzeUrlSecurity trackerModules (str "http://tracker.example/")).flags ∧
    (analyzeUrlSecurity trackerModules
        (str "http://tracker.example/")).threatScore =
      max (analyzeUrl trackerModules.host trackerModules.urlState
          (str "http://tracker.example/")).threatScore
        (if (checkUrl trackerModules.host trackerModules.adultKeywords
            trackerModules.contentFilterSettings
            (str "http://tracker.example/")).isBlocked then
          (checkUrl trackerModules.host trackerModules.adultKeywords
            trackerModules.contentFilterSettings
            (str "http://tracker.example/")).score
        else 0) :=
  tracker_flag_without_score trackerModules (str "http://tracker.example/")
    ⟨str "tracker.example", str "http:"⟩ (by decide) (by decide) (by decide)

/-- Counterexample to C7 as stated: on a URL whose domain is an enabled
advertising tracker and which triggers no other detector, the result
carries the `tracker_detected` flag with score 10 yet its `threatScore`
stays 0 — the per-hit score is never added to the URL-level score. -/
theorem tracker_score_not_added_counterexample :
    (analyzeUrlSecurity trackerModules
        (str "http://tracker.example/")).analysis.privacy =
      some ⟨true, [str "advertising"], true⟩ ∧
    (∃ f ∈ (analyzeUrlSecurity trackerModules
        (str "http://tracker.example/")).flags,
      f.type = str "tracker_detected" ∧ f.score = 10) ∧
    (analyzeUrlSecurity trackerModules
        (str "http://tracker.example/")).threatScore = 0 := by
  decide

/-! ### Claim C8 -/

theorem urgencyStep_eq (env : HostEnv) (textLower : Str) (setFlag : Bool)
    (r : UrgencyResult) (p : PatternEntry) :
    urgencyStep env textLower setFlag r p =
      if urgencyMatched env textLower p then
        ⟨r.hasUrgencyLanguage || setFlag,
          r.matchList ++
            [⟨p.pattern, p.category, env.matchCount p.pattern textLower,
              p.score⟩],
          r.score + p.score⟩
      else r := by
  unfold urgencyStep urgencyMatched
  by_cases h1 : env.regexValid p.pattern
  · by_cases h2 : env.matchCount p.pattern textLower = 0 <;> simp [h1, h2]
  · simp [h1]

theorem urgencyStep_foldl (env : HostEnv) (textLower : Str) (setFlag : Bool)
    (pats : List PatternEntry) (r : UrgencyResult) :
    ((pats.foldl (urgencyStep env textLower setFlag) r).score =
      r.score + ((pats.filter (urgencyMatched env textLower)).map
        (·.score)).sum) ∧
    ((pats.foldl (urgencyStep env textLower setFlag) r).hasUrgencyLanguage =
      (r.hasUrgencyLanguage ||
        (setFlag && pats.any (urgencyMatched env textLower)))) := by
  induction pats generalizing r with
  | nil => simp
  | cons p ps ih =>
    simp only [List.foldl_cons, List.filter_cons, List.any_cons,
      urgencyStep_eq]
    by_cases hm : urgencyMatched env textLower p = true
    · simp only [hm, if_pos, if_true]
      refine ⟨?_, ?_⟩
      · have := (ih ⟨r.hasUrgencyLanguage || setFlag,
          r.matchList ++ [⟨p.pattern, p.category,
            env.matchCount p.pattern textLower, p.score⟩],
          r.score + p.score⟩).1
        simp only [this, List.map_cons, List.sum_cons]
        omega
      · have := (ih ⟨r.hasUrgencyLanguage || setFlag,
          r.matchList ++ [⟨p.pattern, p.category,
            env.matchCount p.pattern textLower, p.score⟩],
          r.score + p.score⟩).2
        simp only [this, hm]
        cases r.hasUrgencyLanguage <;> cases setFlag <;> simp
    · simp only [Bool.not_eq_true] at hm
      simp [hm, (ih r).1, (ih r).2]

set_option maxHeartbeats 1000000 in
/-- C8 (amended): in `detectUrgencyLanguage` every pattern with a valid
regex that matches — in any of the four tables — contributes its configured
score exactly once, so the detector score is the sum of the matching
patterns' scores; `hasUrgencyLanguage` is set exactly when a pattern of the
urgency, credential-harvesting or reward tables matched (a match coming
only from the impersonation-phrasing table contributes score but does not
set it); and the aggregator adds the detector score into the capped
page-level sum exactly when `hasUrgencyLanguage` is set. -/
theorem urgency_scoring_characterisation (env : HostEnv)
    (pp : PhishingPatterns) (text : Str) (ht : text ≠ []) :
    ((detectUrgencyLanguage env (some pp) text).score =
      (((pp.urgencyPatterns ++ pp.credentialPatterns ++ pp.rewardPatterns ++
          pp.impersonationPatterns).filter
            (urgencyMatched env (jsToLower text))).map (·.score)).sum) ∧
    ((detectUrgencyLanguage env (some pp) text).hasUrgencyLanguage =
      ((pp.urgencyPatterns ++ pp.credentialPatterns ++
          pp.rewardPatterns).any (urgencyMatched env (jsToLower text)))) ∧
    (∀ ind : Indicators,
      (calculatePhishingScore ind).totalScore =
        min ((ind.loginForms.elim 0 fun lf =>
            if lf.hasLoginForm then lf.score else 0) +
          (ind.formActions.elim 0 fun fa =>
            if fa.suspiciousActions.length ≠ 0 then fa.score else 0) +
          (ind.brandImpersonation.elim 0 fun bi =>
            if bi.isImpersonating then bi.score else 0) +
          (ind.urgencyLanguage.elim 0 fun ul =>
            if ul.hasUrgencyLanguage then ul.score else 0) +
          (ind.pageCharacteristics.elim 0 fun pc =>
            if pc.suspiciousCharacteristics.length ≠ 0 then pc.score else 0))
          100) := by
  refine ⟨?_, ?_, ?_⟩
  · simp only [detectUrgencyLanguage, if_neg ht]
    rw [(urgencyStep_foldl env (jsToLower text) false _ _).1,
      (urgencyStep_foldl env (jsToLower text) true _ _).1,
      (urgencyStep_foldl env (jsToLower text) true _ _).1,
      (urgencyStep_foldl env (jsToLower text) true _ _).1]
    simp [List.filter_append]
    omega
  · simp only [detectUrgencyLanguage, if_neg ht]
    rw [(urgencyStep_foldl env (jsToLower text) false _ _).2,
      (urgencyStep_foldl env (jsToLower text) true _ _).2,
      (urgencyStep_foldl env (jsToLower text) true _ _).2,
      (urgencyStep_foldl env (jsToLower text) true _ _).2]
    simp [List.any_append, Bool.or_assoc]
  · intro ind
    rcases ind with ⟨lf, fa, bi, ul, pc⟩
    cases lf <;> cases fa <;> cases bi <;> cases ul <;> cases pc <;>
        simp only [calculatePhishingScore, Option.elim] <;>
      split_ifs <;> omega

/-- Witness for C8's amended theorem at a concrete environment. -/
theorem urgency_scoring_characterisation_witness :
    ((detectUrgencyLanguage egUrgencyEnv (some egPhishingPatterns)
        (str "call the support team")).score =
      (((egPhishingPatterns.urgencyPatterns ++
          egPhishingPatterns.credentialPatterns ++
          egPhishingPatterns.rewardPatterns ++
          egPhishingPatterns.impersonationPatterns).filter
            (urgencyMatched egUrgencyEnv
              (jsToLower (str "call the support team")))).map (·.score)).sum) ∧
    ((detectUrgencyLanguage egUrgencyEnv (some egPhishingPatterns)
        (str "call the support team")).hasUrgencyLanguage =
      ((egPhishingPatterns.urgencyPatterns ++
          egPhishingPatterns.credentialPatterns ++
          egPhishingPatterns.rewardPatterns).any
        (urgencyMatched egUrgencyEnv
          (jsToLower (str "call the support team"))))) ∧
    (∀ ind : Indicators,
      (calculatePhishingScore ind).totalScore =
        min ((ind.loginForms.elim 0 fun lf =>
            if lf.hasLoginForm then lf.score else 0) +
          (ind.formActions.elim 0 fun fa =>
            if fa.suspiciousActions.length ≠ 0 then fa.score else 0) +
          (ind.brandImpersonation.elim 0 fun bi =>
            if bi.isImpersonating then bi.score else 0) +
          (ind.urgencyLanguage.elim 0 fun ul =>
            if ul.hasUrgencyLanguage then ul.score else 0) +
          (ind.pageCharacteristics.elim 0 fun pc =>
            if pc.suspiciousCharacteristics.length ≠ 0 then pc.score else 0))
          100) :=
  urgency_scoring_characterisation egUrgencyEnv egPhishingPatterns
    (str "call the support team") (by decide)

/-- Counterexample to C8 as stated: a text whose only match comes from the
impersonation-phrasing table yields detector score 30 with a recorded
match, yet the aggregator adds nothing to the page-level sum, because the
impersonation loop never sets `hasUrgencyLanguage`. -/
theorem urgency_impersonation_only_not_added :
    (detectUrgencyLanguage egUrgencyEnv (some egPhishingPatterns)
      (str "call the support team")).score = 30 ∧
    (detectUrgencyLanguage egUrgencyEnv (some egPhishingPatterns)
      (str "call the support team")).matchList ≠ [] ∧
    (calculatePhishingScore ⟨none, none, none,
      some (detectUrgencyLanguage egUrgencyEnv (some egPhishingPatterns)
        (str "call the support team")), none⟩).totalScore = 0 := by
  decide

/-! ### Claim C6 -/

theorem ltInf_none (d : Nat) : ltInf d none = true := rfl

theorem ltInf_some_iff (d d' : Nat) : ltInf d (some d') = true ↔ d < d' := by
  simp [ltInf]

theorem typoKeywordStep_included (regexTest : Str → Str → Bool)
    (domain dwt : Str) (b : Brand) (r : TypoResult) (kw : Str)
    (h1 : jsIncludes dwt kw = true) :
    typoKeywordStep regexTest domain dwt b r kw = r := by
  unfold typoKeywordStep
  simp [h1]

theorem typoKeywordStep_skip (regexTest : Str → Str → Bool)
    (domain dwt : Str) (b : Brand) (r : TypoResult) (kw : Str)
    (h1 : jsIncludes dwt kw = false)
    (h2 : ¬(levenshteinDistance dwt kw ≤ TYPOSQUATTING_THRESHOLD ∧
      ltInf (levenshteinDistance dwt kw) r.distance = true)) :
    typoKeywordStep regexTest domain dwt b r kw = r := by
  unfold typoKeywordStep
  simp [h1, h2]

theorem typoKeywordStep_legit (regexTest : Str → Str → Bool)
    (domain dwt : Str) (b : Brand) (r : TypoResult) (kw : Str)
    (h1 : jsIncludes dwt kw = false)
    (h2 : levenshteinDistance dwt kw ≤ TYPOSQUATTING_THRESHOLD ∧
      ltInf (levenshteinDistance dwt kw) r.distance = true)
    (h3 : isLegitimateDomain regexTest b domain = true) :
    typoKeywordStep regexTest domain dwt b r kw = r := by
  unfold typoKeywordStep
  simp [h1, h2, h3]

theorem typoKeywordStep_flag (regexTest : Str → Str → Bool)
    (domain dwt : Str) (b : Brand) (r : TypoResult) (kw : Str)
    (h1 : jsIncludes dwt kw = false)
    (h2 : levenshteinDistance dwt kw ≤ TYPOSQUATTING_THRESHOLD ∧
      ltInf (levenshteinDistance dwt kw) r.distance = true)
    (h3 : isLegitimateDomain regexTest b domain = false) :
    typoKeywordStep regexTest domain dwt b r kw =
      ⟨true, some b.name, some (levenshteinDistance dwt kw), some kw,
        some b.priority,
        (TYPOSQUATTING_THRESHOLD - levenshteinDistance dwt kw + 1) * 20⟩ := by
  unfold typoKeywordStep
  simp [h1, h2, h3]

theorem typoInv_step (regexTest : Str → Str → Bool) (domain dwt : Str)
    (b : Brand) (kw : Str) (processed : List (Brand × Str)) (r : TypoResult)
    (h : TypoInv regexTest domain dwt processed r) :
    TypoInv regexTest domain dwt (processed ++ [(b, kw)])
      (typoKeywordStep regexTest domain dwt b r kw) := by
  by_cases h1 : jsIncludes dwt kw = true
  · rw [typoKeywordStep_included regexTest domain dwt b r kw h1]
    rcases h with ⟨hr, hnone⟩ | ⟨d, hflag, hdist, hscore, hwit, hmin⟩
    · left
      refine ⟨hr, fun p hp => ?_⟩
      rcases List.mem_append.mp hp with hp | hp
      · exact hnone p hp
      · rw [List.mem_singleton.mp hp]
        rintro ⟨hc, -, -⟩
        rw [h1] at hc
        cases hc
    · right
      refine ⟨d, hflag, hdist, hscore, ?_, ?_⟩
      · obtain ⟨p, hp, he, hdd⟩ := hwit
        exact ⟨p, List.mem_append_left _ hp, he, hdd⟩
      · intro p hp he
        rcases List.mem_append.mp hp with hp | hp
        · exact hmin p hp he
        · rw [List.mem_singleton.mp hp] at he
          obtain ⟨hc, -, -⟩ := he
          rw [h1] at hc
          cases hc
  · replace h1 : jsIncludes dwt kw = false := by
      cases hj : jsIncludes dwt kw
      · rfl
      · exact absurd hj h1
    by_cases h2 : levenshteinDistance dwt kw ≤ TYPOSQUATTING_THRESHOLD ∧
        ltInf (levenshteinDistance dwt kw) r.distance = true
    · by_cases h3 : isLegitimateDomain regexTest b domain = true
      · rw [typoKeywordStep_legit regexTest domain dwt b r kw h1 h2 h3]
        rcases h with ⟨hr, hnone⟩ | ⟨d, hflag, hdist, hscore, hwit, hmin⟩
        · left
          refine ⟨hr, fun p hp => ?_⟩
          rcases List.mem_append.mp hp with hp | hp
          · exact hnone p hp
          · rw [List.mem_singleton.mp hp]
            rintro ⟨-, -, hc⟩
            rw [h3] at hc
            cases hc
        · right
          refine ⟨d, hflag, hdist, hscore, ?_, ?_⟩
          · obtain ⟨p, hp, he, hdd⟩ := hwit
            exact ⟨p, List.mem_append_left _ hp, he, hdd⟩
          · intro p hp he
            rcases List.mem_append.mp hp with hp | hp
            · exact hmin p hp he
            · rw [List.mem_singleton.mp hp] at he
              obtain ⟨-, -, hc⟩ := he
              rw [h3] at hc
              cases hc
      · replace h3 : isLegitimateDomain regexTest b domain = false := by
          cases hj : isLegitimateDomain regexTest b domain
          · rfl
          · exact absurd hj h3
        rw [typoKeywordStep_flag regexTest domain dwt b r kw h1 h2 h3]
        right
        refine ⟨levenshteinDistance dwt kw, rfl, rfl, rfl, ?_, ?_⟩
        · exact ⟨(b, kw), List.mem_append_right _ (List.mem_singleton.mpr rfl),
            ⟨h1, h2.1, h3⟩, rfl⟩
        · intro p hp he
          rcases List.mem_append.mp hp with hp | hp
          · rcases h with ⟨hr, hnone⟩ | ⟨d, hflag, hdist, hscore, hwit, hmin⟩
            · exact absurd he (hnone p hp)
            · have hlt : levenshteinDistance dwt kw < d := by
                rw [hdist] at h2
                exact (ltInf_some_iff _ _).mp h2.2
              exact Nat.le_of_lt (Nat.lt_of_lt_of_le hlt (hmin p hp he))
          · rw [List.mem_singleton.mp hp]
    · rw [typoKeywordStep_skip regexTest domain dwt b r kw h1 h2]
      rcases h with ⟨hr, hnone⟩ | ⟨d, hflag, hdist, hscore, hwit, hmin⟩
      · left
        refine ⟨hr, fun p hp => ?_⟩
        rcases List.mem_append.mp hp with hp | hp
        · exact hnone p hp
        · rw [List.mem_singleton.mp hp]
          rintro ⟨-, hle, -⟩
          have : ltInf (levenshteinDistance dwt kw) r.distance = true := by
            rw [hr]
            exact ltInf_none _
          exact h2 ⟨hle, this⟩
      · right
        refine ⟨d, hflag, hdist, hscore, ?_, ?_⟩
        · obtain ⟨p, hp, he, hdd⟩ := hwit
          exact ⟨p, List.mem_append_left _ hp, he, hdd⟩
        · intro p hp he
          rcases List.mem_append.mp hp with hp | hp
          · exact hmin p hp he
          · rw [List.mem_singleton.mp hp] at he ⊢
            by_cases hlt : levenshteinDistance dwt kw < d
            · exact absurd ⟨he.2.1, by rw [hdist]; exact (ltInf_some_iff _ _).mpr hlt⟩ h2
            · exact Nat.le_of_not_lt hlt

theorem typoInv_foldl_keywords (regexTest : Str → Str → Bool)
    (domain dwt : Str) (b : Brand) (kws : List Str)
    (processed : List (Brand × Str)) (r : TypoResult)
    (h : TypoInv regexTest domain dwt processed r) :
    TypoInv regexTest domain dwt (processed ++ kws.map fun kw => (b, kw))
      (kws.foldl (typoKeywordStep regexTest domain dwt b) r) := by
  induction kws generalizing processed r with
  | nil => simpa using h
  | cons kw kws ih =>
    have h1 := typoInv_step regexTest domain dwt b kw processed r h
    have h2 := ih (processed ++ [(b, kw)]) _ h1
    simpa [List.append_assoc] using h2

theorem typoInv_foldl_brands (regexTest : Str → Str → Bool)
    (domain dwt : Str) (bs : List Brand) (processed : List (Brand × Str))
    (r : TypoResult) (h : TypoInv regexTest domain dwt processed r) :
    TypoInv regexTest domain dwt
      (processed ++ bs.flatMap fun b => b.keywords.map fun kw => (b, kw))
      (bs.foldl
        (fun result brand => brand.keywords.foldl
          (typoKeywordStep regexTest domain dwt brand) result) r) := by
  induction bs generalizing processed r with
  | nil => simpa using h
  | cons b bs ih =>
    have h1 := typoInv_foldl_keywords regexTest domain dwt b b.keywords
      processed r h
    have h2 := ih (processed ++ b.keywords.map fun kw => (b, kw)) _ h1
    simpa [List.append_assoc] using h2

theorem typo_candidate_mem (brands : List Brand) (p : Brand × Str) :
    p ∈ (brands.flatMap fun b => b.keywords.map fun kw => (b, kw)) ↔
      p.1 ∈ brands ∧ p.2 ∈ p.1.keywords := by
  constructor
  · intro hp
    rcases List.mem_flatMap.mp hp with ⟨b, hb, hkw⟩
    rcases List.mem_map.mp hkw with ⟨kw, hkw', rfl⟩
    exact ⟨hb, hkw'⟩
  · rintro ⟨hb, hkw⟩
    exact List.mem_flatMap.mpr ⟨p.1, hb,
      List.mem_map.mpr ⟨p.2, hkw, rfl⟩⟩

/-- C6: `detectTyposquatting` flags a domain exactly when some brand
keyword is eligible — not literally contained in the domain without its
TLD, within Levenshtein distance 3 of it, and the domain not matching that
brand's legitimate-domain list (exact, suffix or wildcard); whenever a
distance is recorded, it is the minimum over all eligible candidates of all
brands, is attained by one of them, and the score is
`(threshold − distance + 1) × 20`. -/
theorem detectTyposquatting_characterisation (brands : List Brand)
    (regexTest : Str → Str → Bool) (domain : Str) (hd : domain ≠ []) :
    ((detectTyposquatting (some brands) regexTest domain).isTyposquatting =
        true ↔
      ∃ b ∈ brands, ∃ kw ∈ b.keywords,
        TypoEligible regexTest domain
          (List.intercalate (str ".") ((domain.splitOn '.').dropLast)) b kw) ∧
    (∀ d,
      (detectTyposquatting (some brands) regexTest domain).distance = some d →
      (detectTyposquatting (some brands) regexTest domain).score =
        (TYPOSQUATTING_THRESHOLD - d + 1) * 20 ∧
      (∃ b ∈ brands, ∃ kw ∈ b.keywords,
        TypoEligible regexTest domain
          (List.intercalate (str ".") ((domain.splitOn '.').dropLast)) b kw ∧
        levenshteinDistance
          (List.intercalate (str ".") ((domain.splitOn '.').dropLast)) kw = d) ∧
      (∀ b ∈ brands, ∀ kw ∈ b.keywords,
        TypoEligible regexTest domain
          (List.intercalate (str ".") ((domain.splitOn '.').dropLast)) b kw →
        d ≤ levenshteinDistance
          (List.intercalate (str ".") ((domain.splitOn '.').dropLast)) kw)) ∧
    ((detectTyposquatting (some brands) regexTest domain).isTyposquatting =
        true →
      ∃ d,
        (detectTyposquatting (some brands) regexTest domain).distance =
          some d) := by
  have hunf : detectTyposquatting (some brands) regexTest domain =
      brands.foldl
        (fun result brand => brand.keywords.foldl
          (typoKeywordStep regexTest domain
            (List.intercalate (str ".") ((domain.splitOn '.').dropLast)) brand)
          result) typoInit := by
    unfold detectTyposquatting
    dsimp only
    rw [if_neg hd]
  have hinv := typoInv_foldl_brands regexTest domain
    (List.intercalate (str ".") ((domain.splitOn '.').dropLast)) brands []
    typoInit (Or.inl ⟨rfl, by simp⟩)
  rw [List.nil_append] at hinv
  rw [hunf]
  refine ⟨?_, ?_, ?_⟩
  · constructor
    · intro hT
      rcases hinv with ⟨hr, -⟩ | ⟨d, -, -, -, ⟨p, hp, he, -⟩, -⟩
      · rw [hr] at hT
        cases hT
      · obtain ⟨hb, hkw⟩ := (typo_candidate_mem brands p).mp hp
        exact ⟨p.1, hb, p.2, hkw, he⟩
    · rintro ⟨b, hb, kw, hkw, he⟩
      rcases hinv with ⟨-, hnone⟩ | ⟨d, hflag, -, -, -, -⟩
      · exact absurd he (hnone (b, kw) ((typo_candidate_mem brands (b, kw)).mpr
          ⟨hb, hkw⟩))
      · exact hflag
  · intro d hd'
    rcases hinv with ⟨hr, -⟩ | ⟨d', hflag, hdist, hscore, hwit, hmin⟩
    · rw [hr] at hd'
      cases hd'
    · rw [hdist] at hd'
      cases hd'
      refine ⟨hscore, ?_, ?_⟩
      · obtain ⟨p, hp, he, hdd⟩ := hwit
        obtain ⟨hb, hkw⟩ := (typo_candidate_mem brands p).mp hp
        exact ⟨p.1, hb, p.2, hkw, he, hdd⟩
      · intro b hb kw hkw he
        exact hmin (b, kw) ((typo_candidate_mem brands (b, kw)).mpr ⟨hb, hkw⟩)
          he
  · intro hT
    rcases hinv with ⟨hr, -⟩ | ⟨d, -, hdist, -, -, -⟩
    · rw [hr] at hT
      cases hT
    · exact ⟨d, hdist⟩

/-- Witness for C6 on a concrete near-miss domain. -/
theorem detectTyposquatting_characterisation_witness :
    ((detectTyposquatting
        (some [⟨str "PayPal", [str "paypal"], [str "paypal.com"],
          str "critical"⟩]) (fun _ _ => false)
        (str "paypa1.com")).isTyposquatting = true ↔
      ∃ b ∈ [(⟨str "PayPal", [str "paypal"], [str "paypal.com"],
          str "critical"⟩ : Brand)], ∃ kw ∈ b.keywords,
        TypoEligible (fun _ _ => false) (str "paypa1.com")
          (List.intercalate (str ".")
            (((str "paypa1.com").splitOn '.').dropLast)) b kw) ∧
    (∀ d,
      (detectTyposquatting
        (some [⟨str "PayPal", [str "paypal"], [str "paypal.com"],
          str "critical"⟩]) (fun _ _ => false)
        (str "paypa1.com")).distance = some d →
      (detectTyposquatting
        (some [⟨str "PayPal", [str "paypal"], [str "paypal.com"],
          str "critical"⟩]) (fun _ _ => false)
        (str "paypa1.com")).score =
        (TYPOSQUATTING_THRESHOLD - d + 1) * 20 ∧
      (∃ b ∈ [(⟨str "PayPal", [str "paypal"], [str "paypal.com"],
          str "critical"⟩ : Brand)], ∃ kw ∈ b.keywords,
        TypoEligible (fun _ _ => false) (str "paypa1.com")
          (List.intercalate (str ".")
            (((str "paypa1.com").splitOn '.').dropLast)) b kw ∧
        levenshteinDistance
          (List.intercalate (str ".")
            (((str "paypa1.com").splitOn '.').dropLast)) kw = d) ∧
      (∀ b ∈ [(⟨str "PayPal", [str "paypal"], [str "paypal.com"],
          str "critical"⟩ : Brand)], ∀ kw ∈ b.keywords,
        TypoEligible (fun _ _ => false) (str "paypa1.com")
          (List.intercalate (str ".")
            (((str "paypa1.com").splitOn '.').dropLast)) b kw →
        d ≤ levenshteinDistance
          (List.intercalate (str ".")
            (((str "paypa1.com").splitOn '.').dropLast)) kw)) ∧
    ((detectTyposquatting
        (some [⟨str "PayPal", [str "paypal"], [str "paypal.com"],
          str "critical"⟩]) (fun _ _ => false)
        (str "paypa1.com")).isTyposquatting = true →
      ∃ d,
        (detectTyposquatting
          (some [⟨str "PayPal", [str "paypal"], [str "paypal.com"],
            str "critical"⟩]) (fun _ _ => false)
          (str "paypa1.com")).distance = some d) :=
  detectTyposquatting_characterisation
    [⟨str "PayPal", [str "paypal"], [str "paypal.com"], str "critical"⟩]
    (fun _ _ => false) (str "paypa1.com") (by decide)

/-- Counterexample to C6 as stated over *every* domain: on the empty domain
the `!domain` guard returns the neutral result even though an eligible
candidate exists (the keyword `ups` is not contained in the empty
domain-without-TLD, has distance 3 ≤ 3 from it, and the brand has no
legitimate domains), so the detector does not flag although the claim's
condition holds. -/
theorem detectTyposquatting_empty_domain_counterexample :
    (detectTyposquatting
      (some [⟨str "UPS", [str "ups"], [], str "high"⟩])
      (fun _ _ => false) []).isTyposquatting = false ∧
    TypoEligible (fun _ _ => false) []
      (List.intercalate (str ".") ((([] : Str).splitOn '.').dropLast))
      ⟨str "UPS", [str "ups"], [], str "high"⟩ (str "ups") := by
  constructor
  · decide
  · refine ⟨by decide, by decide, by decide⟩
